import Mathlib

/-!
# Verification of the lottie-rs model decoder

A shallow embedding of `crates/model/src/lib.rs`: the Lottie document model
and its JSON (de)serialization behaviour, as determined by the struct/enum
declarations and their serde attributes.  The serde helper module
(`crates/model/src/helpers.rs`) is not part of the sources at hand; every
definition standing in for one of its functions is marked
`Modelled from the spec:` and follows the specification's description of
that helper.  Machine floats (`f32`) are modelled as exact rationals; the
decoded values are moved around, never rounded, so this is faithful for the
properties below (the one arithmetic operation, `Model::duration`, is given
an explicit IEEE-style division that distinguishes the zero denominator).
-/

namespace Lottie

/-- A structured JSON-like value: the input of the decoder (the textual
parse layer is out of scope, the decoder works on this tree). -/
inductive Json where
  | null : Json
  | bool (b : Bool) : Json
  | num (q : ℚ) : Json
  | str (s : String) : Json
  | arr (items : List Json) : Json
  | obj (fields : List (String × Json)) : Json

/-- The decode-error taxonomy of the model crate (§7 of its documentation):
schema violations, unknown discriminants, malformed keyframe sequences. -/
inductive DecodeError where
  | schemaViolation (msg : String)
  | unknownDiscriminant (tag : String)
  | malformedKeyframes (msg : String)
deriving DecidableEq

/-- First-match field lookup in a JSON object's field list. -/
def lookupField (fields : List (String × Json)) (key : String) : Option Json :=
  match fields with
  | [] => none
  | (k, v) :: rest => if k = key then some v else lookupField rest key

/-- A required field: serde errors out when the key is absent. -/
def reqField (fields : List (String × Json)) (key : String)
    (d : Json → Except DecodeError α) : Except DecodeError α :=
  match lookupField fields key with
  | some j => d j
  | none => .error (.schemaViolation key)

/-- An `Option` field: serde maps an absent key or an explicit `null`
to `None`, any other value is decoded. -/
def optField (fields : List (String × Json)) (key : String)
    (d : Json → Except DecodeError α) : Except DecodeError (Option α) :=
  match lookupField fields key with
  | none => .ok none
  | some .null => .ok none
  | some j => do
    let v ← d j
    .ok (some v)

/-- A field with a serde `default`: the default applies only when the key
is entirely absent, a present value (even `null`) is decoded. -/
def fieldD (fields : List (String × Json)) (key : String)
    (d : Json → Except DecodeError α) (dflt : α) : Except DecodeError α :=
  match lookupField fields key with
  | none => .ok dflt
  | some j => d j

/-- Decode every element of a list, failing on the first element that
fails (serde's `Vec` deserialization). -/
def decodeList (d : α → Except DecodeError β) : List α → Except DecodeError (List β)
  | [] => .ok []
  | x :: xs => do
    let y ← d x
    let ys ← decodeList d xs
    .ok (y :: ys)

/-- Decode a JSON number (an `f32` in the source, modelled exactly). -/
def decodeNum : Json → Except DecodeError ℚ
  | .num q => .ok q
  | _ => .error (.schemaViolation "expected number")

/-- Encode an `f32` field. -/
def encodeNum (q : ℚ) : Json := .num q

/-- Decode a JSON string. -/
def decodeStr : Json → Except DecodeError String
  | .str s => .ok s
  | _ => .error (.schemaViolation "expected string")

/-- Decode a plain JSON boolean (the `hd` and `c` flags). -/
def decodeBool : Json → Except DecodeError Bool
  | .bool b => .ok b
  | _ => .error (.schemaViolation "expected bool")

/-- Decode a `u32` field: a nonnegative integer below `2^32`. -/
def decodeU32 : Json → Except DecodeError ℕ
  | .num q =>
    if q.den = 1 ∧ 0 ≤ q.num ∧ q.num < 4294967296 then .ok q.num.toNat
    else .error (.schemaViolation "expected u32")
  | _ => .error (.schemaViolation "expected u32")

/-- Encode a `u32` field. -/
def encodeU32 (n : ℕ) : Json := .num n

/-- Modelled from the spec: helper `bool_from_int` (the helper module is
missing from the sources) — "decode function maps source integer `0`→false,
any non-zero→true". -/
def bool_from_int : Json → Except DecodeError Bool
  | .num q =>
    if q.den = 1 then .ok (if q = 0 then false else true)
    else .error (.schemaViolation "expected integer boolean")
  | _ => .error (.schemaViolation "expected integer boolean")

/-- Modelled from the spec: helper `int_from_bool` — "encode function maps
the reverse (false→0, true→1)". -/
def int_from_bool (b : Bool) : Json := .num (if b then 1 else 0)

/-- A 2D vector with `f32` components (`euclid` `Vector2D<f32>`). -/
structure Vector2D where
  x : ℚ
  y : ℚ
deriving DecidableEq

/-- Modelled from the spec: a single 2-element coordinate array decoded
into a 2D vector (§4.1, "arrays-of-2-element-arrays into a list of 2D
vectors"). -/
def decodeVec2 : Json → Except DecodeError Vector2D
  | .arr [.num x, .num y] => .ok ⟨x, y⟩
  | _ => .error (.schemaViolation "expected coordinate pair")

/-- Encode a 2D vector as a 2-element coordinate array. -/
def encodeVec2 (v : Vector2D) : Json := .arr [.num v.x, .num v.y]

/-- Modelled from the spec: helper `vec_from_array` — "vertex/tangent lists
are decoded from arrays-of-2-element-arrays into a list of 2D vectors". -/
def vec_from_array : Json → Except DecodeError (List Vector2D)
  | .arr items => decodeList decodeVec2 items
  | _ => .error (.schemaViolation "expected coordinate array")

/-- Modelled from the spec: helper `array_from_vec` — "encode is the exact
inverse, preserving order and element count". -/
def array_from_vec (vs : List Vector2D) : Json := .arr (vs.map encodeVec2)

/-- Modelled from the spec: helper `array_from_array_or_number` — "a field
may appear as a bare number or as a single-element array; decoding must
accept both and normalize to a list". -/
def array_from_array_or_number : Json → Except DecodeError (List ℚ)
  | .num q => .ok [q]
  | .arr items => decodeList decodeNum items
  | _ => .error (.schemaViolation "expected number or number array")

/-- Easing control handles (struct `Easing`, fields `x`/`y`). -/
structure Easing where
  x : List ℚ
  y : List ℚ
deriving DecidableEq

/-- Decode an `Easing` record: both axes required, each scalar-or-array. -/
def decodeEasing : Json → Except DecodeError Easing
  | .obj fields => do
    let ex ← reqField fields "x" array_from_array_or_number
    let ey ← reqField fields "y" array_from_array_or_number
    .ok { x := ex, y := ey }
  | _ => .error (.schemaViolation "expected easing object")

/-- Encode an `Easing` record (serde's default `Vec<f32>` serialization). -/
def encodeEasing (e : Easing) : Json :=
  .obj [("x", .arr (e.x.map Json.num)), ("y", .arr (e.y.map Json.num))]

/-- Encode an optional sub-record; serde writes `None` as `null`. -/
def encodeOpt (f : α → Json) : Option α → Json
  | none => .null
  | some v => f v

/-- Struct `KeyFrame<T>`: one interpolation interval.  `end_value` and
`end_frame` are `#[serde(skip)]` fields, filled in by the backfill pass. -/
structure KeyFrame (T : Type) where
  start_value : T
  end_value : T
  start_frame : ℚ
  end_frame : ℚ
  easing_out : Option Easing
  easing_in : Option Easing
deriving DecidableEq

/-- `KeyFrame::from_value`: a degenerate constant keyframe. -/
def KeyFrame.from_value (value : T) : KeyFrame T :=
  { start_value := value
    end_value := value
    start_frame := 0
    end_frame := 0
    easing_out := none
    easing_in := none }

/-- Decode one source keyframe record literally: required start value `s`,
start frame `t` (default 0), optional easing handles `o`/`i`; the
serde-skipped end fields are left at the value type's default. -/
def decodeKeyFrame (decT : Json → Except DecodeError T) (dflt : T) :
    Json → Except DecodeError (KeyFrame T)
  | .obj fields => do
    let s ← reqField fields "s" decT
    let t ← fieldD fields "t" decodeNum 0
    let o ← optField fields "o" decodeEasing
    let i ← optField fields "i" decodeEasing
    .ok { start_value := s
          end_value := dflt
          start_frame := t
          end_frame := 0
          easing_out := o
          easing_in := i }
  | _ => .error (.malformedKeyframes "expected keyframe object")

/-- The end-value/end-frame backfill pass: every keyframe except the last
borrows its `end_value` from the next keyframe's `start_value` and its
`end_frame` from the next keyframe's `start_frame`; the last keyframe is
left untouched. -/
def backfill : List (KeyFrame T) → List (KeyFrame T)
  | [] => []
  | [k] => [k]
  | k1 :: k2 :: rest =>
    { k1 with end_value := k2.start_value, end_frame := k2.start_frame }
      :: backfill (k2 :: rest)

/-- Struct `Animated<T>`: the generic animation container — an `a`
int-bool flag plus the keyframe list decoded from `k`. -/
structure Animated (T : Type) where
  animated : Bool
  keyframes : List (KeyFrame T)
deriving DecidableEq

/-- Modelled from the spec: helper `keyframes_from_array` (the helper
module is missing from the sources) — the Animated Property Decoder
contract of §4.2: flag false/absent means one literal value of type `T`
(with a single-element keyframe-shaped array accepted for legacy
compatibility, also yielding one constant keyframe); flag true means a
non-empty keyframe list, decoded literally and then backfilled; an empty
list with the flag true is a malformed-keyframes decode error. -/
def decodeAnimated (decT : Json → Except DecodeError T) (dflt : T) :
    Json → Except DecodeError (Animated T)
  | .obj fields => do
    let a ← fieldD fields "a" bool_from_int false
    match lookupField fields "k" with
    | none => .error (.schemaViolation "k")
    | some kj =>
      if a then
        match kj with
        | .arr [] => .error (.malformedKeyframes "empty keyframe list")
        | .arr kjs => do
          let ks ← decodeList (decodeKeyFrame decT dflt) kjs
          .ok { animated := true, keyframes := backfill ks }
        | _ => .error (.malformedKeyframes "expected keyframe array")
      else
        match decT kj with
        | .ok v => .ok { animated := false, keyframes := [KeyFrame.from_value v] }
        | .error e =>
          match kj with
          | .arr [kfj] => do
            let kf ← decodeKeyFrame decT dflt kfj
            .ok { animated := false, keyframes := [KeyFrame.from_value kf.start_value] }
          | _ => .error e
  | _ => .error (.schemaViolation "expected animated property object")

/-- Encode one keyframe record: the serde-visible fields `s`, `t`, `o`,
`i`; the end fields are `#[serde(skip)]` and never written. -/
def encodeKeyFrame (encT : T → Json) (k : KeyFrame T) : Json :=
  .obj [("s", encT k.start_value), ("t", .num k.start_frame),
        ("o", encodeOpt encodeEasing k.easing_out),
        ("i", encodeOpt encodeEasing k.easing_in)]

/-- Modelled from the spec: helper `array_from_keyframes` — the encode
counterpart of the Animated Property Decoder, the exact inverse (§8): an
animated property writes its keyframe records, a constant property writes
the single keyframe's value literally. -/
def array_from_keyframes (encT : T → Json) (a : Animated T) : Json :=
  if a.animated then .arr (a.keyframes.map (encodeKeyFrame encT))
  else
    match a.keyframes with
    | k :: _ => encT k.start_value
    | [] => .null

/-- Encode an `Animated<T>` property: `a` int-bool flag plus `k`. -/
def encodeAnimated (encT : T → Json) (a : Animated T) : Json :=
  .obj [("a", int_from_bool a.animated), ("k", array_from_keyframes encT a)]

/-- `Animated<T>`'s derived `Default`: not animated, one all-default
keyframe (which coincides with `from_value` of the value default). -/
def Animated.defaultOf (dflt : T) : Animated T :=
  { animated := false, keyframes := [KeyFrame.from_value dflt] }

/-- Decode a `serde_repr` `u8` enumeration: the JSON number must be an
integer in `u8` range; `f` maps the declared discriminant values. -/
def decodeReprU8 (f : ℕ → Option α) : Json → Except DecodeError α
  | .num q =>
    if q.den = 1 ∧ 0 ≤ q.num ∧ q.num < 256 then
      match f q.num.toNat with
      | some v => .ok v
      | none => .error (.unknownDiscriminant "enum value")
    else .error (.schemaViolation "expected u8 enum value")
  | _ => .error (.schemaViolation "expected u8 enum value")

/-- Enum `PolyStarType` (`sy`): Star = 1, Polygon = 2. -/
inductive PolyStarType where
  | Star
  | Polygon
deriving DecidableEq

def decodePolyStarType : Json → Except DecodeError PolyStarType :=
  decodeReprU8 fun n =>
    match n with
    | 1 => some .Star
    | 2 => some .Polygon
    | _ => none

def encodePolyStarType : PolyStarType → Json
  | .Star => .num 1
  | .Polygon => .num 2

/-- Enum `FillRule` (`r`): NonZero = 1, EvenOdd = 2; defaults to NonZero. -/
inductive FillRule where
  | NonZero
  | EvenOdd
deriving DecidableEq

def decodeFillRule : Json → Except DecodeError FillRule :=
  decodeReprU8 fun n =>
    match n with
    | 1 => some .NonZero
    | 2 => some .EvenOdd
    | _ => none

def encodeFillRule : FillRule → Json
  | .NonZero => .num 1
  | .EvenOdd => .num 2

/-- Enum `LineCap` (`lc`): Butt = 1, Round = 2, Square = 3. -/
inductive LineCap where
  | Butt
  | Round
  | Square
deriving DecidableEq

def decodeLineCap : Json → Except DecodeError LineCap :=
  decodeReprU8 fun n =>
    match n with
    | 1 => some .Butt
    | 2 => some .Round
    | 3 => some .Square
    | _ => none

def encodeLineCap : LineCap → Json
  | .Butt => .num 1
  | .Round => .num 2
  | .Square => .num 3

/-- Enum `LineJoin` (`lj`): Miter = 1, Round = 2, Bevel = 3. -/
inductive LineJoin where
  | Miter
  | Round
  | Bevel
deriving DecidableEq

def decodeLineJoin : Json → Except DecodeError LineJoin :=
  decodeReprU8 fun n =>
    match n with
    | 1 => some .Miter
    | 2 => some .Round
    | 3 => some .Bevel
    | _ => none

def encodeLineJoin : LineJoin → Json
  | .Miter => .num 1
  | .Round => .num 2
  | .Bevel => .num 3

/-- Enum `GradientType` (`t`): Linear = 1, Radial = 2. -/
inductive GradientType where
  | Linear
  | Radial
deriving DecidableEq

def decodeGradientType : Json → Except DecodeError GradientType :=
  decodeReprU8 fun n =>
    match n with
    | 1 => some .Linear
    | 2 => some .Radial
    | _ => none

def encodeGradientType : GradientType → Json
  | .Linear => .num 1
  | .Radial => .num 2

/-- Enum `Composite` (`m` on a repeater): Above = 1, Below = 2. -/
inductive Composite where
  | Above
  | Below
deriving DecidableEq

def decodeComposite : Json → Except DecodeError Composite :=
  decodeReprU8 fun n =>
    match n with
    | 1 => some .Above
    | 2 => some .Below
    | _ => none

def encodeComposite : Composite → Json
  | .Above => .num 1
  | .Below => .num 2

/-- Enum `TrimMultipleShape` (`m` on a trim): Individually = 1,
Simultaneously = 2. -/
inductive TrimMultipleShape where
  | Individually
  | Simultaneously
deriving DecidableEq

def decodeTrimMultipleShape : Json → Except DecodeError TrimMultipleShape :=
  decodeReprU8 fun n =>
    match n with
    | 1 => some .Individually
    | 2 => some .Simultaneously
    | _ => none

def encodeTrimMultipleShape : TrimMultipleShape → Json
  | .Individually => .num 1
  | .Simultaneously => .num 2

/-- Enum `ShapeDirection` (`d`): Clockwise = 1, CounterClockwise = 2;
defaults to Clockwise. -/
inductive ShapeDirection where
  | Clockwise
  | CounterClockwise
deriving DecidableEq

def decodeShapeDirection : Json → Except DecodeError ShapeDirection :=
  decodeReprU8 fun n =>
    match n with
    | 1 => some .Clockwise
    | 2 => some .CounterClockwise
    | _ => none

def encodeShapeDirection : ShapeDirection → Json
  | .Clockwise => .num 1
  | .CounterClockwise => .num 2

/-- Enum `MergeMode` (`mm`): the only declared variant is the
`#[serde(other)]` catch-all `Unsupported = 1`, so every in-range
discriminant value collapses to it. -/
inductive MergeMode where
  | Unsupported
deriving DecidableEq

def decodeMergeMode : Json → Except DecodeError MergeMode :=
  decodeReprU8 fun _ => some .Unsupported

def encodeMergeMode : MergeMode → Json
  | .Unsupported => .num 1

/-- Enum `FontPathOrigin`: Local = 0, CssUrl = 1, ScriptUrl = 2,
FontUrl = 3; defaults to Local. -/
inductive FontPathOrigin where
  | Local
  | CssUrl
  | ScriptUrl
  | FontUrl
deriving DecidableEq

def decodeFontPathOrigin : Json → Except DecodeError FontPathOrigin :=
  decodeReprU8 fun n =>
    match n with
    | 0 => some .Local
    | 1 => some .CssUrl
    | 2 => some .ScriptUrl
    | 3 => some .FontUrl
    | _ => none

def encodeFontPathOrigin : FontPathOrigin → Json
  | .Local => .num 0
  | .CssUrl => .num 1
  | .ScriptUrl => .num 2
  | .FontUrl => .num 3

/-- Enum `StrokeDashType` (`n`): an externally tagged string enum with
variants `d` (Dash), `g` (Gap), `o` (Offset). -/
inductive StrokeDashType where
  | Dash
  | Gap
  | Offset
deriving DecidableEq

def decodeStrokeDashType : Json → Except DecodeError StrokeDashType
  | .str s =>
    match s with
    | "d" => .ok .Dash
    | "g" => .ok .Gap
    | "o" => .ok .Offset
    | other => .error (.unknownDiscriminant other)
  | _ => .error (.schemaViolation "expected dash type string")

def encodeStrokeDashType : StrokeDashType → Json
  | .Dash => .str "d"
  | .Gap => .str "g"
  | .Offset => .str "o"

/-- Struct `Rgb`: three `u8` channels. -/
structure Rgb where
  r : ℕ
  g : ℕ
  b : ℕ
deriving DecidableEq

/-- Rust's saturating `f32` → `u8` cast (`as u8`): truncation toward zero,
clamped to `0..=255` (for the positive values reaching the truncation,
`num.toNat / den` is exactly the truncated integer part). -/
def f32_to_u8 (q : ℚ) : ℕ :=
  if q ≤ 0 then 0 else min 255 (q.num.toNat / q.den)

/-- `Rgb::new_f32`: scale each 0.0–1.0 channel by 255 and truncate. -/
def Rgb.new_f32 (r g b : ℚ) : Rgb :=
  { r := f32_to_u8 (r * 255), g := f32_to_u8 (g * 255), b := f32_to_u8 (b * 255) }

/-- `Rgb::new_u8`. -/
def Rgb.new_u8 (r g b : ℕ) : Rgb := { r := r, g := g, b := b }

/-- Modelled from the spec: the per-type value decoder for a solid color —
a 3-or-more element array of 0.0–1.0 channel floats, converted with the
truncating scaling of `Rgb::new_f32` (§4.4). -/
def decodeRgb : Json → Except DecodeError Rgb
  | .arr (.num r :: .num g :: .num b :: _) => .ok (Rgb.new_f32 r g b)
  | _ => .error (.schemaViolation "expected color array")

/-- Modelled from the spec: the encode counterpart of `decodeRgb`, the
exact inverse — each `u8` channel written back as its 0.0–1.0 float. -/
def encodeRgb (c : Rgb) : Json :=
  .arr [.num ((c.r : ℚ) / 255), .num ((c.g : ℚ) / 255), .num ((c.b : ℚ) / 255)]

/-- Struct `Rgba`: four `u8` channels. -/
structure Rgba where
  r : ℕ
  g : ℕ
  b : ℕ
  a : ℕ
deriving DecidableEq

/-- `Rgba::from_str` is `todo!()` in the source: decoding a hex color
string never succeeds (modelled as an error; the Rust placeholder aborts,
so no document containing one is ever decoded). -/
def rgbaFromStr (_s : String) : Except DecodeError Rgba :=
  .error (.schemaViolation "Rgba hex parsing unimplemented")

/-- Struct `AnimatedColorList`: animated flag plus gradient color list. -/
structure AnimatedColorList where
  animated : Bool
  colors : List Rgba
deriving DecidableEq

/-- Modelled from the spec: the gradient color list deserializer is in the
missing helper module and the spec describes only the struct's shape
(animated flag + color list); modelled as `{a, k}` with `a` an int-bool
and `k` an array of 4-element 0.0–1.0 channel arrays scaled with the
truncating conversion of §4.4. -/
def decodeRgbaStop : Json → Except DecodeError Rgba
  | .arr [.num r, .num g, .num b, .num a] =>
    .ok { r := f32_to_u8 (r * 255), g := f32_to_u8 (g * 255),
          b := f32_to_u8 (b * 255), a := f32_to_u8 (a * 255) }
  | _ => .error (.schemaViolation "expected color stop")

def encodeRgbaStop (c : Rgba) : Json :=
  .arr [.num ((c.r : ℚ) / 255), .num ((c.g : ℚ) / 255),
        .num ((c.b : ℚ) / 255), .num ((c.a : ℚ) / 255)]

def decodeRgbaStopList : Json → Except DecodeError (List Rgba)
  | .arr items => decodeList decodeRgbaStop items
  | _ => .error (.schemaViolation "expected color stop array")

def decodeAnimatedColorList : Json → Except DecodeError AnimatedColorList
  | .obj fields => do
    let a ← fieldD fields "a" bool_from_int false
    let ks ← reqField fields "k" decodeRgbaStopList
    .ok { animated := a, colors := ks }
  | _ => .error (.schemaViolation "expected color list object")

def encodeAnimatedColorList (l : AnimatedColorList) : Json :=
  .obj [("a", int_from_bool l.animated),
        ("k", .arr (l.colors.map encodeRgbaStop))]

/-- Struct `Bezier`: closed flag plus the three parallel coordinate lists
(`v` vertices, `i` incoming tangents, `o` outgoing tangents), each decoded
independently with `vec_from_array`. -/
structure Bezier where
  closed : Bool
  verticies : List Vector2D
  in_tangent : List Vector2D
  out_tangent : List Vector2D
deriving DecidableEq

def decodeBezier : Json → Except DecodeError Bezier
  | .obj fields => do
    let c ← fieldD fields "c" decodeBool false
    let v ← reqField fields "v" vec_from_array
    let i ← reqField fields "i" vec_from_array
    let o ← reqField fields "o" vec_from_array
    .ok { closed := c, verticies := v, in_tangent := i, out_tangent := o }
  | _ => .error (.schemaViolation "expected bezier object")

def encodeBezier (b : Bezier) : Json :=
  .obj [("c", .bool b.closed), ("v", array_from_vec b.verticies),
        ("i", array_from_vec b.in_tangent), ("o", array_from_vec b.out_tangent)]

/-- Modelled from the spec: the per-type value decoder for a bezier path
list (`T = Vec<Bezier>`): either a single path object or an array of path
objects, normalized to a list. -/
def decodeBezierList : Json → Except DecodeError (List Bezier)
  | .arr items => decodeList decodeBezier items
  | j => do
    let b ← decodeBezier j
    .ok [b]

/-- Modelled from the spec: encode counterpart of `decodeBezierList`, the
exact inverse — a one-path list is written as the single path object. -/
def encodeBezierList : List Bezier → Json
  | [b] => encodeBezier b
  | bs => .arr (bs.map encodeBezier)

/-- The concrete `Animated` decoders used by the model's fields. -/
def decodeAnimatedNum : Json → Except DecodeError (Animated ℚ) :=
  decodeAnimated decodeNum 0

def decodeAnimatedVec2 : Json → Except DecodeError (Animated Vector2D) :=
  decodeAnimated decodeVec2 ⟨0, 0⟩

def decodeAnimatedRgb : Json → Except DecodeError (Animated Rgb) :=
  decodeAnimated decodeRgb ⟨0, 0, 0⟩

def decodeAnimatedBezier : Json → Except DecodeError (Animated (List Bezier)) :=
  decodeAnimated decodeBezierList []

def encodeAnimatedNum : Animated ℚ → Json := encodeAnimated encodeNum

def encodeAnimatedVec2 : Animated Vector2D → Json := encodeAnimated encodeVec2

def encodeAnimatedRgb : Animated Rgb → Json := encodeAnimated encodeRgb

def encodeAnimatedBezier : Animated (List Bezier) → Json :=
  encodeAnimated encodeBezierList

/-- Modelled from the spec: helper `default_vec2_100` — the default scale,
a constant (100, 100) (the claim-level description of the default
transform: scale 100). -/
def default_vec2_100 : Animated Vector2D :=
  { animated := false, keyframes := [KeyFrame.from_value ⟨100, 100⟩] }

/-- Modelled from the spec: helper `default_number_100` — the default
opacity, a constant 100. -/
def default_number_100 : Animated ℚ :=
  { animated := false, keyframes := [KeyFrame.from_value 100] }

/-- Struct `Transform` (`ks` sub-object): anchor `a`, position `p`,
scale `s` (default constant 100), rotation `r` (default), opacity `o`
(default constant 100), skew `sk`, skew axis `sa`; `auto_orient` is
`#[serde(skip)]`. -/
structure Transform where
  anchor : Option (Animated Vector2D)
  position : Option (Animated Vector2D)
  scale : Animated Vector2D
  rotation : Animated ℚ
  auto_orient : Bool
  opacity : Animated ℚ
  skew : Option (Animated Vector2D)
  skew_axis : Option (Animated Vector2D)
deriving DecidableEq

def decodeTransform : Json → Except DecodeError Transform
  | .obj fields => do
    let a ← optField fields "a" decodeAnimatedVec2
    let p ← optField fields "p" decodeAnimatedVec2
    let s ← fieldD fields "s" decodeAnimatedVec2 default_vec2_100
    let r ← fieldD fields "r" decodeAnimatedNum (Animated.defaultOf 0)
    let o ← fieldD fields "o" decodeAnimatedNum default_number_100
    let sk ← optField fields "sk" decodeAnimatedVec2
    let sa ← optField fields "sa" decodeAnimatedVec2
    .ok { anchor := a, position := p, scale := s, rotation := r,
          auto_orient := false, opacity := o, skew := sk, skew_axis := sa }
  | _ => .error (.schemaViolation "expected transform object")

def encodeTransform (t : Transform) : Json :=
  .obj [("a", encodeOpt encodeAnimatedVec2 t.anchor),
        ("p", encodeOpt encodeAnimatedVec2 t.position),
        ("s", encodeAnimatedVec2 t.scale),
        ("r", encodeAnimatedNum t.rotation),
        ("o", encodeAnimatedNum t.opacity),
        ("sk", encodeOpt encodeAnimatedVec2 t.skew),
        ("sa", encodeOpt encodeAnimatedVec2 t.skew_axis)]

/-- `Transform::default()`: no anchor/position/skew, constant scale 100,
default rotation, constant opacity 100, auto-orient off. -/
def Transform.defaultTransform : Transform :=
  { anchor := none, position := none, scale := default_vec2_100,
    rotation := Animated.defaultOf 0, auto_orient := false,
    opacity := default_number_100, skew := none, skew_axis := none }

/-- `Transform::is_identity`: the source returns `false` unconditionally
(the body is `false // TODO`). -/
def Transform.is_identity (_t : Transform) : Bool := false

/-- Struct `RepeaterTransform` (`tr` on a repeater): like `Transform` but
with required position/scale/rotation and separate start/end opacity. -/
structure RepeaterTransform where
  anchor : Animated Vector2D
  position : Animated Vector2D
  scale : Animated Vector2D
  rotation : Animated ℚ
  start_opacity : Animated ℚ
  end_opacity : Animated ℚ
  skew : Option (Animated Vector2D)
  skew_axis : Option (Animated Vector2D)
deriving DecidableEq

def decodeRepeaterTransform : Json → Except DecodeError RepeaterTransform
  | .obj fields => do
    let a ← fieldD fields "a" decodeAnimatedVec2 (Animated.defaultOf ⟨0, 0⟩)
    let p ← reqField fields "p" decodeAnimatedVec2
    let s ← reqField fields "s" decodeAnimatedVec2
    let r ← reqField fields "r" decodeAnimatedNum
    let so ← reqField fields "so" decodeAnimatedNum
    let eo ← reqField fields "eo" decodeAnimatedNum
    let sk ← optField fields "sk" decodeAnimatedVec2
    let sa ← optField fields "sa" decodeAnimatedVec2
    .ok { anchor := a, position := p, scale := s, rotation := r,
          start_opacity := so, end_opacity := eo, skew := sk, skew_axis := sa }
  | _ => .error (.schemaViolation "expected repeater transform object")

def encodeRepeaterTransformFields (t : RepeaterTransform) : List (String × Json) :=
  [("a", encodeAnimatedVec2 t.anchor),
   ("p", encodeAnimatedVec2 t.position),
   ("s", encodeAnimatedVec2 t.scale),
   ("r", encodeAnimatedNum t.rotation),
   ("so", encodeAnimatedNum t.start_opacity),
   ("eo", encodeAnimatedNum t.end_opacity),
   ("sk", encodeOpt encodeAnimatedVec2 t.skew),
   ("sa", encodeOpt encodeAnimatedVec2 t.skew_axis)]

def encodeRepeaterTransform (t : RepeaterTransform) : Json :=
  .obj (encodeRepeaterTransformFields t)

/-- Struct `StrokeDash`: dash segment length `v` plus role `n`. -/
structure StrokeDash where
  length : Animated ℚ
  ty : StrokeDashType
deriving DecidableEq

def decodeStrokeDash : Json → Except DecodeError StrokeDash
  | .obj fields => do
    let v ← reqField fields "v" decodeAnimatedNum
    let n ← reqField fields "n" decodeStrokeDashType
    .ok { length := v, ty := n }
  | _ => .error (.schemaViolation "expected stroke dash object")

def encodeStrokeDashFields (d : StrokeDash) : List (String × Json) :=
  [("v", encodeAnimatedNum d.length), ("n", encodeStrokeDashType d.ty)]

def encodeStrokeDash (d : StrokeDash) : Json := .obj (encodeStrokeDashFields d)

/-- Struct `Fill`: opacity `o`, color `c`, fill rule `r` (default). -/
structure Fill where
  opacity : Animated ℚ
  color : Animated Rgb
  fill_rule : FillRule
deriving DecidableEq

def decodeFill : Json → Except DecodeError Fill
  | .obj fields => do
    let o ← reqField fields "o" decodeAnimatedNum
    let c ← reqField fields "c" decodeAnimatedRgb
    let r ← fieldD fields "r" decodeFillRule .NonZero
    .ok { opacity := o, color := c, fill_rule := r }
  | _ => .error (.schemaViolation "expected fill object")

def encodeFillFields (f : Fill) : List (String × Json) :=
  [("o", encodeAnimatedNum f.opacity), ("c", encodeAnimatedRgb f.color),
   ("r", encodeFillRule f.fill_rule)]

/-- Struct `Stroke`: caps/joins, miter limit, opacity, width, dash list
(default empty), color. -/
structure Stroke where
  line_cap : LineCap
  line_join : LineJoin
  miter_limit : ℚ
  opacity : Animated ℚ
  width : Animated ℚ
  dashes : List StrokeDash
  color : Animated Rgb
deriving DecidableEq

def decodeStrokeDashList : Json → Except DecodeError (List StrokeDash)
  | .arr items => decodeList decodeStrokeDash items
  | _ => .error (.schemaViolation "expected dash array")

def decodeStroke : Json → Except DecodeError Stroke
  | .obj fields => do
    let lc ← reqField fields "lc" decodeLineCap
    let lj ← reqField fields "lj" decodeLineJoin
    let ml ← reqField fields "ml" decodeNum
    let o ← reqField fields "o" decodeAnimatedNum
    let w ← reqField fields "w" decodeAnimatedNum
    let d ← fieldD fields "d" decodeStrokeDashList []
    let c ← reqField fields "c" decodeAnimatedRgb
    .ok { line_cap := lc, line_join := lj, miter_limit := ml, opacity := o,
          width := w, dashes := d, color := c }
  | _ => .error (.schemaViolation "expected stroke object")

def encodeStrokeFields (s : Stroke) : List (String × Json) :=
  [("lc", encodeLineCap s.line_cap), ("lj", encodeLineJoin s.line_join),
   ("ml", .num s.miter_limit), ("o", encodeAnimatedNum s.opacity),
   ("w", encodeAnimatedNum s.width),
   ("d", .arr (s.dashes.map encodeStrokeDash)),
   ("c", encodeAnimatedRgb s.color)]

/-- Struct `Rectangle`: direction `d` (default), position `p`, size `s`,
corner radius `r`. -/
structure Rectangle where
  direction : ShapeDirection
  position : Animated Vector2D
  size : Animated Vector2D
  radius : Animated ℚ
deriving DecidableEq

def decodeRectangle : Json → Except DecodeError Rectangle
  | .obj fields => do
    let d ← fieldD fields "d" decodeShapeDirection .Clockwise
    let p ← reqField fields "p" decodeAnimatedVec2
    let s ← reqField fields "s" decodeAnimatedVec2
    let r ← reqField fields "r" decodeAnimatedNum
    .ok { direction := d, position := p, size := s, radius := r }
  | _ => .error (.schemaViolation "expected rectangle object")

def encodeRectangleFields (r : Rectangle) : List (String × Json) :=
  [("d", encodeShapeDirection r.direction), ("p", encodeAnimatedVec2 r.position),
   ("s", encodeAnimatedVec2 r.size), ("r", encodeAnimatedNum r.radius)]

/-- Struct `Ellipse`: direction `d` (default), position `p`, size `s`. -/
structure Ellipse where
  direction : ShapeDirection
  position : Animated Vector2D
  size : Animated Vector2D
deriving DecidableEq

def decodeEllipse : Json → Except DecodeError Ellipse
  | .obj fields => do
    let d ← fieldD fields "d" decodeShapeDirection .Clockwise
    let p ← reqField fields "p" decodeAnimatedVec2
    let s ← reqField fields "s" decodeAnimatedVec2
    .ok { direction := d, position := p, size := s }
  | _ => .error (.schemaViolation "expected ellipse object")

def encodeEllipseFields (e : Ellipse) : List (String × Json) :=
  [("d", encodeShapeDirection e.direction), ("p", encodeAnimatedVec2 e.position),
   ("s", encodeAnimatedVec2 e.size)]

/-- Struct `PolyStar`: direction, position, outer/inner radius and
roundness, rotation, point count, star-or-polygon type. -/
structure PolyStar where
  direction : ShapeDirection
  position : Animated Vector2D
  outer_radius : Animated ℚ
  outer_roundness : Animated ℚ
  inner_radius : Animated ℚ
  inner_roundness : Animated ℚ
  rotation : Animated ℚ
  points : Animated ℚ
  star_type : PolyStarType
deriving DecidableEq

def decodePolyStar : Json → Except DecodeError PolyStar
  | .obj fields => do
    let d ← fieldD fields "d" decodeShapeDirection .Clockwise
    let p ← reqField fields "p" decodeAnimatedVec2
    let orr ← reqField fields "or" decodeAnimatedNum
    let os ← reqField fields "os" decodeAnimatedNum
    let ir ← reqField fields "ir" decodeAnimatedNum
    let isr ← reqField fields "is" decodeAnimatedNum
    let r ← reqField fields "r" decodeAnimatedNum
    let pt ← reqField fields "pt" decodeAnimatedNum
    let sy ← reqField fields "sy" decodePolyStarType
    .ok { direction := d, position := p, outer_radius := orr,
          outer_roundness := os, inner_radius := ir, inner_roundness := isr,
          rotation := r, points := pt, star_type := sy }
  | _ => .error (.schemaViolation "expected polystar object")

def encodePolyStarFields (p : PolyStar) : List (String × Json) :=
  [("d", encodeShapeDirection p.direction), ("p", encodeAnimatedVec2 p.position),
   ("or", encodeAnimatedNum p.outer_radius), ("os", encodeAnimatedNum p.outer_roundness),
   ("ir", encodeAnimatedNum p.inner_radius), ("is", encodeAnimatedNum p.inner_roundness),
   ("r", encodeAnimatedNum p.rotation), ("pt", encodeAnimatedNum p.points),
   ("sy", encodePolyStarType p.star_type)]

mutual
/-- Enum `Shape`: the `#[serde(tag = "ty")]` internally tagged union of
the 18 shape variants. -/
inductive Shape where
  | Rectangle (rect : Rectangle) : Shape
  | Ellipse (ellipse : Ellipse) : Shape
  | PolyStar (star : PolyStar) : Shape
  | Path (d : Animated (List Bezier)) : Shape
  | Fill (fill : Fill) : Shape
  | Stroke (stroke : Stroke) : Shape
  | GradientFill (opacity : Animated ℚ) (fill_rule : FillRule)
      (start : Animated Vector2D) (end_ : Animated Vector2D)
      (gradient_ty : GradientType) (colors : AnimatedColorList) : Shape
  | GradientStroke (line_cap : LineCap) (line_join : LineJoin)
      (miter_limit : ℚ) (opacity : Animated ℚ) (width : Animated ℚ)
      (dashes : List StrokeDash) (start : Animated Vector2D)
      (end_ : Animated Vector2D) (gradient_ty : GradientType)
      (colors : AnimatedColorList) : Shape
  | Group (shapes : List ShapeLayer) : Shape
  | Transform (transform : Lottie.Transform) : Shape
  | Repeater (copies : Animated ℚ) (offset : Animated ℚ)
      (composite : Composite) (transform : RepeaterTransform) : Shape
  | Trim (start : Animated ℚ) (end_ : Animated ℚ) (offset : Animated ℚ)
      (multiple_shape : TrimMultipleShape) : Shape
  | RoundedCorners (radius : Animated ℚ) : Shape
  | PuckerBloat (amount : Animated ℚ) : Shape
  | Twist (angle : Animated ℚ) (center : Animated Vector2D) : Shape
  | Merge (mode : MergeMode) : Shape
  | OffsetPath (amount : Animated ℚ) (line_join : LineJoin)
      (miter_limit : ℚ) : Shape
  | ZigZag (radius : Animated ℚ) (distance : Animated ℚ)
      (ridges : Animated ℚ) : Shape

/-- Struct `ShapeLayer`: name `nm`, hidden `hd`, skipped `id`, and the
`#[serde(flatten)]`-ed shape. -/
inductive ShapeLayer where
  | mk (name : Option String) (hidden : Bool) (id : ℕ) (shape : Shape) : ShapeLayer
end

def ShapeLayer.name : ShapeLayer → Option String
  | .mk n _ _ _ => n

def ShapeLayer.hidden : ShapeLayer → Bool
  | .mk _ h _ _ => h

def ShapeLayer.id : ShapeLayer → ℕ
  | .mk _ _ i _ => i

def ShapeLayer.shape : ShapeLayer → Shape
  | .mk _ _ _ s => s

/-- `Transform` written back as a field list (used flattened). -/
def encodeTransformFields (t : Transform) : List (String × Json) :=
  [("a", encodeOpt encodeAnimatedVec2 t.anchor),
   ("p", encodeOpt encodeAnimatedVec2 t.position),
   ("s", encodeAnimatedVec2 t.scale),
   ("r", encodeAnimatedNum t.rotation),
   ("o", encodeAnimatedNum t.opacity),
   ("sk", encodeOpt encodeAnimatedVec2 t.skew),
   ("sa", encodeOpt encodeAnimatedVec2 t.skew_axis)]

/-- The 18 documented shape discriminant codes, in declaration order. -/
def shapeTyCodes : List String :=
  ["rc", "el", "sr", "sh", "fl", "st", "gf", "gs", "gr", "tr", "rp",
   "tm", "rd", "pb", "tw", "mm", "op", "zz"]

mutual
/-- Decode a `Shape` record: dispatch on the `ty` discriminant string;
an unrecognized discriminant fails the decode with an
unknown-discriminant error.  The fuel argument bounds the `Group`
recursion depth (the Rust decoder recurses on the call stack). -/
def decodeShape : ℕ → Json → Except DecodeError Shape
  | 0, _ => .error (.schemaViolation "shape nesting too deep")
  | fuel + 1, .obj fields =>
    match lookupField fields "ty" with
    | some (.str tag) =>
      match tag with
      | "rc" => do
        let r ← decodeRectangle (.obj fields)
        .ok (.Rectangle r)
      | "el" => do
        let e ← decodeEllipse (.obj fields)
        .ok (.Ellipse e)
      | "sr" => do
        let p ← decodePolyStar (.obj fields)
        .ok (.PolyStar p)
      | "sh" => do
        let d ← reqField fields "ks" decodeAnimatedBezier
        .ok (.Path d)
      | "fl" => do
        let f ← decodeFill (.obj fields)
        .ok (.Fill f)
      | "st" => do
        let s ← decodeStroke (.obj fields)
        .ok (.Stroke s)
      | "gf" => do
        let o ← reqField fields "o" decodeAnimatedNum
        let r ← reqField fields "r" decodeFillRule
        let s ← reqField fields "s" decodeAnimatedVec2
        let e ← reqField fields "e" decodeAnimatedVec2
        let t ← reqField fields "t" decodeGradientType
        let g ← reqField fields "g" decodeAnimatedColorList
        .ok (.GradientFill o r s e t g)
      | "gs" => do
        let lc ← reqField fields "lc" decodeLineCap
        let lj ← reqField fields "lj" decodeLineJoin
        let ml ← reqField fields "ml" decodeNum
        let o ← reqField fields "o" decodeAnimatedNum
        let w ← reqField fields "w" decodeAnimatedNum
        let d ← fieldD fields "d" decodeStrokeDashList []
        let s ← reqField fields "s" decodeAnimatedVec2
        let e ← reqField fields "e" decodeAnimatedVec2
        let t ← reqField fields "t" decodeGradientType
        let g ← reqField fields "g" decodeAnimatedColorList
        .ok (.GradientStroke lc lj ml o w d s e t g)
      | "gr" =>
        match lookupField fields "it" with
        | some (.arr items) => do
          let shapes ← decodeShapeLayers fuel items
          .ok (.Group shapes)
        | some _ => .error (.schemaViolation "it")
        | none => .error (.schemaViolation "it")
      | "tr" => do
        let t ← decodeTransform (.obj fields)
        .ok (.Transform t)
      | "rp" => do
        let c ← reqField fields "c" decodeAnimatedNum
        let o ← reqField fields "o" decodeAnimatedNum
        let m ← reqField fields "m" decodeComposite
        let tr ← reqField fields "tr" decodeRepeaterTransform
        .ok (.Repeater c o m tr)
      | "tm" => do
        let s ← reqField fields "s" decodeAnimatedNum
        let e ← reqField fields "e" decodeAnimatedNum
        let o ← reqField fields "o" decodeAnimatedNum
        let m ← reqField fields "m" decodeTrimMultipleShape
        .ok (.Trim s e o m)
      | "rd" => do
        let r ← reqField fields "r" decodeAnimatedNum
        .ok (.RoundedCorners r)
      | "pb" => do
        let a ← reqField fields "a" decodeAnimatedNum
        .ok (.PuckerBloat a)
      | "tw" => do
        let a ← reqField fields "a" decodeAnimatedNum
        let c ← reqField fields "c" decodeAnimatedVec2
        .ok (.Twist a c)
      | "mm" => do
        let m ← reqField fields "mm" decodeMergeMode
        .ok (.Merge m)
      | "op" => do
        let a ← reqField fields "a" decodeAnimatedNum
        let lj ← reqField fields "lj" decodeLineJoin
        let ml ← reqField fields "ml" decodeNum
        .ok (.OffsetPath a lj ml)
      | "zz" => do
        let r ← reqField fields "r" decodeAnimatedNum
        let s ← reqField fields "s" decodeAnimatedNum
        let pt ← reqField fields "pt" decodeAnimatedNum
        .ok (.ZigZag r s pt)
      | other => .error (.unknownDiscriminant other)
    | some _ => .error (.schemaViolation "ty")
    | none => .error (.schemaViolation "ty")
  | _ + 1, _ => .error (.schemaViolation "expected shape object")

/-- Decode a list of shape-layer wrappers (a group's `it` array),
preserving order. -/
def decodeShapeLayers : ℕ → List Json → Except DecodeError (List ShapeLayer)
  | 0, _ => .error (.schemaViolation "shape nesting too deep")
  | _ + 1, [] => .ok []
  | fuel + 1, j :: rest => do
    let s ← decodeShapeLayer fuel j
    let ss ← decodeShapeLayers fuel rest
    .ok (s :: ss)

/-- Decode one shape-layer wrapper: `nm`, `hd` (default false), skipped
`id` (0), and the flattened shape decoded from the same record. -/
def decodeShapeLayer : ℕ → Json → Except DecodeError ShapeLayer
  | 0, _ => .error (.schemaViolation "shape nesting too deep")
  | fuel + 1, .obj fields => do
    let nm ← optField fields "nm" decodeStr
    let hd ← fieldD fields "hd" decodeBool false
    let sh ← decodeShape fuel (.obj fields)
    .ok (.mk nm hd 0 sh)
  | _ + 1, _ => .error (.schemaViolation "expected shape layer object")
end

mutual
/-- Encode a `Shape` as its internally tagged field list: the `ty`
discriminant followed by the variant's payload fields. -/
def encodeShapeFields : Shape → List (String × Json)
  | .Rectangle r => ("ty", .str "rc") :: encodeRectangleFields r
  | .Ellipse e => ("ty", .str "el") :: encodeEllipseFields e
  | .PolyStar p => ("ty", .str "sr") :: encodePolyStarFields p
  | .Path d => [("ty", .str "sh"), ("ks", encodeAnimatedBezier d)]
  | .Fill f => ("ty", .str "fl") :: encodeFillFields f
  | .Stroke s => ("ty", .str "st") :: encodeStrokeFields s
  | .GradientFill o r s e t g =>
    [("ty", .str "gf"), ("o", encodeAnimatedNum o), ("r", encodeFillRule r),
     ("s", encodeAnimatedVec2 s), ("e", encodeAnimatedVec2 e),
     ("t", encodeGradientType t), ("g", encodeAnimatedColorList g)]
  | .GradientStroke lc lj ml o w d s e t g =>
    [("ty", .str "gs"), ("lc", encodeLineCap lc), ("lj", encodeLineJoin lj),
     ("ml", .num ml), ("o", encodeAnimatedNum o), ("w", encodeAnimatedNum w),
     ("d", .arr (d.map encodeStrokeDash)), ("s", encodeAnimatedVec2 s),
     ("e", encodeAnimatedVec2 e), ("t", encodeGradientType t),
     ("g", encodeAnimatedColorList g)]
  | .Group shapes => [("ty", .str "gr"), ("it", .arr (encodeShapeLayerList shapes))]
  | .Transform t => ("ty", .str "tr") :: encodeTransformFields t
  | .Repeater c o m tr =>
    [("ty", .str "rp"), ("c", encodeAnimatedNum c), ("o", encodeAnimatedNum o),
     ("m", encodeComposite m), ("tr", encodeRepeaterTransform tr)]
  | .Trim s e o m =>
    [("ty", .str "tm"), ("s", encodeAnimatedNum s), ("e", encodeAnimatedNum e),
     ("o", encodeAnimatedNum o), ("m", encodeTrimMultipleShape m)]
  | .RoundedCorners r => [("ty", .str "rd"), ("r", encodeAnimatedNum r)]
  | .PuckerBloat a => [("ty", .str "pb"), ("a", encodeAnimatedNum a)]
  | .Twist a c =>
    [("ty", .str "tw"), ("a", encodeAnimatedNum a), ("c", encodeAnimatedVec2 c)]
  | .Merge m => [("ty", .str "mm"), ("mm", encodeMergeMode m)]
  | .OffsetPath a lj ml =>
    [("ty", .str "op"), ("a", encodeAnimatedNum a), ("lj", encodeLineJoin lj),
     ("ml", .num ml)]
  | .ZigZag r s pt =>
    [("ty", .str "zz"), ("r", encodeAnimatedNum r), ("s", encodeAnimatedNum s),
     ("pt", encodeAnimatedNum pt)]

/-- Encode a list of shape-layer wrappers. -/
def encodeShapeLayerList : List ShapeLayer → List Json
  | [] => []
  | s :: rest => encodeShapeLayer s :: encodeShapeLayerList rest

/-- Encode one shape-layer wrapper: `nm`, `hd`, then the flattened shape
fields, all in one record. -/
def encodeShapeLayer : ShapeLayer → Json
  | .mk nm hd _ sh =>
    .obj (("nm", encodeOpt Json.str nm) :: ("hd", .bool hd) :: encodeShapeFields sh)
end

/-- Struct `ShapeGroup`: the `shapes` list of a shape layer. -/
structure ShapeGroup where
  shapes : List ShapeLayer

def decodeShapeGroup (fuel : ℕ) : Json → Except DecodeError ShapeGroup
  | .obj fields =>
    match lookupField fields "shapes" with
    | some (.arr items) => do
      let ss ← decodeShapeLayers fuel items
      .ok { shapes := ss }
    | some _ => .error (.schemaViolation "shapes")
    | none => .error (.schemaViolation "shapes")
  | _ => .error (.schemaViolation "expected shape group object")

/-- Struct `PreCompositionRef`: `refId`, `w`, `h`, optional `tm`
time remapping. -/
structure PreCompositionRef where
  ref_id : String
  width : ℕ
  height : ℕ
  time_remapping : Option (Animated ℚ)
deriving DecidableEq

def decodePreCompositionRef : Json → Except DecodeError PreCompositionRef
  | .obj fields => do
    let rid ← reqField fields "refId" decodeStr
    let w ← reqField fields "w" decodeU32
    let h ← reqField fields "h" decodeU32
    let tm ← optField fields "tm" decodeAnimatedNum
    .ok { ref_id := rid, width := w, height := h, time_remapping := tm }
  | _ => .error (.schemaViolation "expected precomposition ref")

def encodePreCompositionRefFields (r : PreCompositionRef) : List (String × Json) :=
  [("refId", .str r.ref_id), ("w", encodeU32 r.width), ("h", encodeU32 r.height),
   ("tm", encodeOpt encodeAnimatedNum r.time_remapping)]

/-- Enum `LayerContent`: the untagged layer content union, one variant per
layer family. -/
inductive LayerContent where
  | Precomposition (ref : PreCompositionRef) : LayerContent
  | SolidColor (color : Rgba) (height : ℚ) (width : ℚ) : LayerContent
  | Image : LayerContent
  | Empty : LayerContent
  | Shape (group : ShapeGroup) : LayerContent
  | Text : LayerContent
  | Audio : LayerContent

/-- Modelled from the spec: the layer-content deserializer is in the
missing helper module; §4.3 gives the inference — "precomposition content
requires a reference-id key; solid-color content requires
color/width/height keys; shape content requires a shapes key; absence of
all distinguishing keys yields the Empty variant" — checked in that
precedence order on the flattened layer record.  The solid-color branch
parses its hex color with `Rgba::from_str`, which the source leaves
unimplemented, so it never succeeds. -/
def decodeLayerContent (fuel : ℕ) (fields : List (String × Json)) :
    Except DecodeError LayerContent :=
  match lookupField fields "refId" with
  | some _ => do
    let r ← decodePreCompositionRef (.obj fields)
    .ok (.Precomposition r)
  | none =>
    match lookupField fields "sc" with
    | some _ => do
      let cs ← reqField fields "sc" decodeStr
      let c ← rgbaFromStr cs
      let h ← reqField fields "sh" decodeNum
      let w ← reqField fields "sw" decodeNum
      .ok (.SolidColor c h w)
    | none =>
      match lookupField fields "shapes" with
      | some _ => do
        let g ← decodeShapeGroup fuel (.obj fields)
        .ok (.Shape g)
      | none => .ok .Empty

/-- Encode the layer content back into flattened fields (inverse of the
presence-based inference; the variants the decoder can never produce are
written as nothing). -/
def encodeLayerContentFields : LayerContent → List (String × Json)
  | .Precomposition r => encodePreCompositionRefFields r
  | .SolidColor _ h w => [("sh", .num h), ("sw", .num w)]
  | .Shape g => [("shapes", .arr (encodeShapeLayerList g.shapes))]
  | .Image => []
  | .Empty => []
  | .Text => []
  | .Audio => []

/-- Struct `Layer`: one timeline entry (§3). `id` is `#[serde(skip)]` and
decodes to 0. -/
structure Layer where
  is_3d : Bool
  hidden : Bool
  index : Option ℕ
  parent_index : Option ℕ
  id : ℕ
  auto_orient : Bool
  start_frame : ℚ
  end_frame : ℚ
  start_time : ℚ
  name : Option String
  transform : Option Transform
  content : LayerContent

def decodeLayer (fuel : ℕ) : Json → Except DecodeError Layer
  | .obj fields => do
    let ddd ← fieldD fields "ddd" bool_from_int false
    let hd ← fieldD fields "hd" decodeBool false
    let ind ← optField fields "ind" decodeU32
    let par ← optField fields "parent" decodeU32
    let ao ← fieldD fields "ao" bool_from_int false
    let ip ← reqField fields "ip" decodeNum
    let op ← reqField fields "op" decodeNum
    let st ← reqField fields "st" decodeNum
    let nm ← optField fields "nm" decodeStr
    let ks ← optField fields "ks" decodeTransform
    let content ← decodeLayerContent fuel fields
    .ok { is_3d := ddd, hidden := hd, index := ind, parent_index := par,
          id := 0, auto_orient := ao, start_frame := ip, end_frame := op,
          start_time := st, name := nm, transform := ks, content := content }
  | _ => .error (.schemaViolation "expected layer object")

def encodeLayerFields (l : Layer) : List (String × Json) :=
  ("ddd", int_from_bool l.is_3d) :: ("hd", .bool l.hidden) ::
  ("ind", encodeOpt encodeU32 l.index) ::
  ("parent", encodeOpt encodeU32 l.parent_index) ::
  ("ao", int_from_bool l.auto_orient) ::
  ("ip", .num l.start_frame) :: ("op", .num l.end_frame) ::
  ("st", .num l.start_time) :: ("nm", encodeOpt Json.str l.name) ::
  ("ks", encodeOpt encodeTransform l.transform) ::
  encodeLayerContentFields l.content

def encodeLayer (l : Layer) : Json := .obj (encodeLayerFields l)

def decodeLayerList (fuel : ℕ) : Json → Except DecodeError (List Layer)
  | .arr items => decodeList (decodeLayer fuel) items
  | _ => .error (.schemaViolation "layers")

/-- Struct `Precomposition`: an asset entry — `id`, its own layer list,
optional name, optional frame-rate override. -/
structure Precomposition where
  id : String
  layers : List Layer
  name : Option String
  frame_rate : Option ℚ

def decodePrecomposition (fuel : ℕ) : Json → Except DecodeError Precomposition
  | .obj fields => do
    let pid ← reqField fields "id" decodeStr
    let ls ← reqField fields "layers" (decodeLayerList fuel)
    let nm ← optField fields "nm" decodeStr
    let fr ← optField fields "fr" decodeNum
    .ok { id := pid, layers := ls, name := nm, frame_rate := fr }
  | _ => .error (.schemaViolation "expected precomposition object")

def encodePrecompositionFields (p : Precomposition) : List (String × Json) :=
  [("id", .str p.id), ("layers", .arr (p.layers.map encodeLayer)),
   ("nm", encodeOpt Json.str p.name),
   ("fr", encodeOpt Json.num p.frame_rate)]

def encodePrecomposition (p : Precomposition) : Json :=
  .obj (encodePrecompositionFields p)

/-- Struct `Font`: one typeface descriptor. -/
structure Font where
  ascent : Option ℚ
  family : String
  name : String
  style : String
  path : Option String
  weight : Option String
  origin : FontPathOrigin
  class_ : Option String
deriving DecidableEq

def decodeFont : Json → Except DecodeError Font
  | .obj fields => do
    let asc ← optField fields "ascent" decodeNum
    let fam ← reqField fields "fFamily" decodeStr
    let nm ← reqField fields "fName" decodeStr
    let sty ← reqField fields "fStyle" decodeStr
    let pth ← optField fields "fPath" decodeStr
    let wt ← optField fields "fWeight" decodeStr
    let org ← fieldD fields "origin" decodeFontPathOrigin .Local
    let cls ← optField fields "fClass" decodeStr
    .ok { ascent := asc, family := fam, name := nm, style := sty,
          path := pth, weight := wt, origin := org, class_ := cls }
  | _ => .error (.schemaViolation "expected font object")

def encodeFontFields (f : Font) : List (String × Json) :=
  [("ascent", encodeOpt Json.num f.ascent), ("fFamily", .str f.family),
   ("fName", .str f.name), ("fStyle", .str f.style),
   ("fPath", encodeOpt Json.str f.path),
   ("fWeight", encodeOpt Json.str f.weight),
   ("origin", encodeFontPathOrigin f.origin),
   ("fClass", encodeOpt Json.str f.class_)]

def encodeFont (f : Font) : Json := .obj (encodeFontFields f)

/-- Struct `FontList`. -/
structure FontList where
  list : List Font
deriving DecidableEq

def decodeFontVec : Json → Except DecodeError (List Font)
  | .arr items => decodeList decodeFont items
  | _ => .error (.schemaViolation "list")

def decodeFontList : Json → Except DecodeError FontList
  | .obj fields => do
    let fs ← reqField fields "list" decodeFontVec
    .ok { list := fs }
  | _ => .error (.schemaViolation "expected font list object")

def encodeFontListFields (l : FontList) : List (String × Json) :=
  [("list", .arr (l.list.map encodeFont))]

def encodeFontList (l : FontList) : Json := .obj (encodeFontListFields l)

/-- Struct `Model`: the root document. -/
structure Model where
  name : Option String
  version : Option String
  start_frame : ℚ
  end_frame : ℚ
  frame_rate : ℚ
  width : ℕ
  height : ℕ
  layers : List Layer
  assets : List Precomposition
  fonts : FontList

def decodePrecompositionList (fuel : ℕ) :
    Json → Except DecodeError (List Precomposition)
  | .arr items => decodeList (decodePrecomposition fuel) items
  | _ => .error (.schemaViolation "assets")

def decodeModel (fuel : ℕ) : Json → Except DecodeError Model
  | .obj fields => do
    let nm ← optField fields "nm" decodeStr
    let v ← optField fields "v" decodeStr
    let ip ← reqField fields "ip" decodeNum
    let op ← reqField fields "op" decodeNum
    let fr ← reqField fields "fr" decodeNum
    let w ← reqField fields "w" decodeU32
    let h ← reqField fields "h" decodeU32
    let ls ← reqField fields "layers" (decodeLayerList fuel)
    let asts ← fieldD fields "assets" (decodePrecompositionList fuel) []
    let fnts ← fieldD fields "fonts" decodeFontList { list := [] }
    .ok { name := nm, version := v, start_frame := ip, end_frame := op,
          frame_rate := fr, width := w, height := h, layers := ls,
          assets := asts, fonts := fnts }
  | _ => .error (.schemaViolation "expected document object")

def encodeModelFields (m : Model) : List (String × Json) :=
  [("nm", encodeOpt Json.str m.name), ("v", encodeOpt Json.str m.version),
   ("ip", .num m.start_frame), ("op", .num m.end_frame),
   ("fr", .num m.frame_rate), ("w", encodeU32 m.width),
   ("h", encodeU32 m.height),
   ("layers", .arr (m.layers.map encodeLayer)),
   ("assets", .arr (m.assets.map encodePrecomposition)),
   ("fonts", encodeFontList m.fonts)]

def encodeModel (m : Model) : Json := .obj (encodeModelFields m)

/-- An `f32` computation result: a finite rational or one of the IEEE
non-finite sentinels. -/
inductive F32Val where
  | finite (q : ℚ) : F32Val
  | inf : F32Val
  | negInf : F32Val
  | nan : F32Val
deriving DecidableEq

def F32Val.isFinite : F32Val → Bool
  | .finite _ => true
  | _ => false

/-- `Model::duration`: `(end_frame - start_frame) / frame_rate`, a plain
`f32` division — with a zero frame rate the IEEE quotient is a non-finite
sentinel (∞, −∞ or NaN depending on the numerator's sign), not an error. -/
def Model.duration (m : Model) : F32Val :=
  if m.frame_rate = 0 then
    if 0 < m.end_frame - m.start_frame then .inf
    else if m.end_frame - m.start_frame < 0 then .negInf
    else .nan
  else .finite ((m.end_frame - m.start_frame) / m.frame_rate)

/-! ## General lemmas about the decode combinators -/

@[simp]
theorem ok_bind {α β : Type} (a : α) (f : α → Except DecodeError β) :
    (Except.ok a >>= f) = f a := rfl

@[simp]
theorem error_bind {α β : Type} (e : DecodeError) (f : α → Except DecodeError β) :
    ((Except.error e : Except DecodeError α) >>= f) = .error e := rfl

theorem bind_ok_iff {α β : Type} {x : Except DecodeError α}
    {f : α → Except DecodeError β} {b : β} :
    (x >>= f) = .ok b ↔ ∃ a, x = .ok a ∧ f a = .ok b := by
  cases x with
  | ok a => simp
  | error e => simp

theorem decodeList_ok_iff {α β : Type} {d : α → Except DecodeError β}
    {l : List α} {ys : List β} :
    decodeList d l = .ok ys ↔ List.Forall₂ (fun x y => d x = .ok y) l ys := by
  induction l generalizing ys with
  | nil =>
    constructor
    · intro h
      cases ys with
      | nil => exact List.Forall₂.nil
      | cons y ys2 => simp [decodeList] at h
    · intro h
      cases h
      rfl
  | cons x xs ih =>
    constructor
    · intro h
      simp only [decodeList, bind_ok_iff] at h
      obtain ⟨y, hy, ys2, hys2, hcons⟩ := h
      obtain rfl : y :: ys2 = ys := by simpa using hcons
      exact List.Forall₂.cons hy (ih.mp hys2)
    · intro h
      cases h with
      | cons hy ht =>
        simp only [decodeList, hy, ok_bind, ih.mpr ht]

theorem decodeList_length {α β : Type} {d : α → Except DecodeError β}
    {l : List α} {ys : List β} (h : decodeList d l = .ok ys) :
    ys.length = l.length :=
  ((decodeList_ok_iff.mp h).length_eq).symm

theorem forall2_of_mem_right {α β : Type} {r : α → β → Prop} {l : List α}
    {ys : List β} {y : β} (h : List.Forall₂ r l ys) (hy : y ∈ ys) :
    ∃ x, x ∈ l ∧ r x y := by
  induction h with
  | nil => cases hy
  | cons hr _ht ih =>
    rcases List.mem_cons.1 hy with rfl | hy2
    · exact ⟨_, List.mem_cons_self _ _, hr⟩
    · obtain ⟨x, hx, hr2⟩ := ih hy2
      exact ⟨x, List.mem_cons_of_mem _ hx, hr2⟩

/-! ## Lemmas about the keyframe backfill pass -/

theorem backfill_length {T : Type} (ks : List (KeyFrame T)) :
    (backfill ks).length = ks.length := by
  induction ks with
  | nil => rfl
  | cons k rest ih =>
    cases rest with
    | nil => rfl
    | cons k2 rest2 =>
      simp only [backfill, List.length_cons] at ih ⊢
      omega

theorem backfill_getElem? {T : Type} (ks : List (KeyFrame T)) (i : ℕ) :
    (backfill ks)[i]? = ks[i]?.map (fun k =>
      match ks[i + 1]? with
      | some k2 => { k with end_value := k2.start_value, end_frame := k2.start_frame }
      | none => k) := by
  induction ks generalizing i with
  | nil => simp [backfill]
  | cons k rest ih =>
    cases rest with
    | nil =>
      match i with
      | 0 => simp [backfill]
      | j + 1 => simp [backfill]
    | cons k2 rest2 =>
      match i with
      | 0 => simp [backfill]
      | j + 1 =>
        simp only [backfill, List.getElem?_cons_succ]
        simpa using ih j

theorem decodeKeyFrame_ok_ends {T : Type} {decT : Json → Except DecodeError T}
    {dflt : T} {j : Json} {k : KeyFrame T}
    (h : decodeKeyFrame decT dflt j = .ok k) :
    k.end_value = dflt ∧ k.end_frame = 0 := by
  cases j with
  | obj fields =>
    simp only [decodeKeyFrame, bind_ok_iff, Except.ok.injEq] at h
    obtain ⟨s, _, t, _, o, _, i, _, hk⟩ := h
    subst hk
    exact ⟨rfl, rfl⟩
  | null => simp [decodeKeyFrame] at h
  | bool b => simp [decodeKeyFrame] at h
  | num q => simp [decodeKeyFrame] at h
  | str s => simp [decodeKeyFrame] at h
  | arr items => simp [decodeKeyFrame] at h

/-! ## Claim C1: the end-value/end-frame backfill -/

/-- The keyframe records of the spec's backfill example. -/
def kfExampleKjs : List Json :=
  [.obj [("s", .num 0), ("t", .num 0)],
   .obj [("s", .num 10), ("t", .num 5)],
   .obj [("s", .num 20), ("t", .num 10)]]

/-- The field list of the spec's backfill example. -/
def kfExampleFields : List (String × Json) :=
  [("a", .num 1), ("k", .arr kfExampleKjs)]

/-- The spec's keyframe-backfill example input:
`{a:1, k:[{s:0,t:0},{s:10,t:5},{s:20,t:10}]}`. -/
def kfExampleJson : Json := .obj kfExampleFields

/-- The three interval keyframes the example decodes to: 0→10 over frames
0→5, 10→20 over frames 5→10, and 20 at frame 10 with default end fields. -/
def kfExampleVal : Animated ℚ :=
  { animated := true,
    keyframes := [
      { start_value := 0, end_value := 10, start_frame := 0, end_frame := 5,
        easing_out := none, easing_in := none },
      { start_value := 10, end_value := 20, start_frame := 5, end_frame := 10,
        easing_out := none, easing_in := none },
      { start_value := 20, end_value := 0, start_frame := 10, end_frame := 0,
        easing_out := none, easing_in := none }] }

/-- C1: decoding an animated property with the animated flag true from a
keyframe list yields one keyframe per source entry; every keyframe except
the last takes its end value from the next keyframe's start value and its
end frame from the next keyframe's start frame, the last keyframe keeps
the default end fields; and the spec's concrete three-keyframe example
decodes to exactly the three stated intervals. -/
theorem C1_keyframe_backfill :
    (∀ (T : Type) (decT : Json → Except DecodeError T) (dflt : T)
       (fields : List (String × Json)) (av : ℚ) (kjs : List Json) (A : Animated T),
      lookupField fields "a" = some (.num av) → av.den = 1 → av ≠ 0 →
      lookupField fields "k" = some (.arr kjs) →
      decodeAnimated decT dflt (.obj fields) = .ok A →
      A.animated = true ∧
      A.keyframes.length = kjs.length ∧
      (∀ (i : ℕ) (k1 k2 : KeyFrame T), A.keyframes[i]? = some k1 →
        A.keyframes[i + 1]? = some k2 →
        k1.end_value = k2.start_value ∧ k1.end_frame = k2.start_frame) ∧
      (∀ klast : KeyFrame T, A.keyframes[kjs.length - 1]? = some klast →
        klast.end_value = dflt ∧ klast.end_frame = 0)) ∧
    decodeAnimatedNum kfExampleJson = .ok kfExampleVal := by
  constructor
  · intro T decT dflt fields av kjs A ha hden hne hk hdec
    have hflag : fieldD fields "a" bool_from_int false = .ok true := by
      simp [fieldD, ha, bool_from_int, hden, hne]
    rw [decodeAnimated, hflag] at hdec
    simp only [ok_bind, hk, if_true] at hdec
    cases kjs with
    | nil => simp at hdec
    | cons j rest =>
      simp only [bind_ok_iff] at hdec
      obtain ⟨ks, hks, hA⟩ := hdec
      have hA2 : A = { animated := true, keyframes := backfill ks } := by
        simpa using hA.symm
      subst hA2
      have hlen : ks.length = (j :: rest).length := decodeList_length hks
      refine ⟨rfl, ?_, ?_, ?_⟩
      · simpa [backfill_length] using hlen
      · intro i k1 k2 h1 h2
        replace h1 : (backfill ks)[i]? = some k1 := h1
        replace h2 : (backfill ks)[i + 1]? = some k2 := h2
        rw [backfill_getElem?] at h1 h2
        rcases ho1 : ks[i]? with _ | ko1
        · rw [ho1] at h1
          simp at h1
        rcases ho2 : ks[i + 1]? with _ | ko2
        · rw [ho2] at h2
          simp at h2
        rw [ho1, ho2] at h1
        simp at h1
        rw [ho2] at h2
        rcases ho3 : ks[i + 1 + 1]? with _ | ko3 <;> rw [ho3] at h2 <;>
          simp at h2 <;> subst h1 <;> subst h2 <;> exact ⟨rfl, rfl⟩
      · intro klast hlast
        replace hlast : (backfill ks)[(j :: rest).length - 1]? = some klast :=
          hlast
        rw [backfill_getElem?] at hlast
        have hnone : ks[(j :: rest).length - 1 + 1]? = none := by
          apply List.getElem?_eq_none
          omega
        rw [hnone] at hlast
        rcases holast : ks[(j :: rest).length - 1]? with _ | ko
        · rw [holast] at hlast
          simp at hlast
        rw [holast] at hlast
        simp at hlast
        subst hlast
        have hmem : ko ∈ ks := List.getElem?_mem holast
        obtain ⟨x, _, hx⟩ :=
          forall2_of_mem_right (decodeList_ok_iff.mp hks) hmem
        exact decodeKeyFrame_ok_ends hx
  · rfl

/-! ## Claim C2: non-animated scalar normalization -/

/-- C2: a property record with the animated flag absent or 0 and `k` a
literal scalar decodes to exactly one keyframe with identical start/end
value and zero start/end frame. -/
theorem C2_constant_value :
    ∀ (v : ℚ) (fields : List (String × Json)),
      (lookupField fields "a" = none ∨ lookupField fields "a" = some (.num 0)) →
      lookupField fields "k" = some (.num v) →
      decodeAnimatedNum (.obj fields) =
        .ok { animated := false,
              keyframes := [{ start_value := v, end_value := v,
                              start_frame := 0, end_frame := 0,
                              easing_out := none, easing_in := none }] } := by
  intro v fields ha hk
  have hflag : fieldD fields "a" bool_from_int false = .ok false := by
    rcases ha with ha | ha
    · simp [fieldD, ha]
    · simp [fieldD, ha, bool_from_int]
  rw [decodeAnimatedNum, decodeAnimated, hflag]
  simp only [ok_bind, hk, if_false, Bool.false_eq_true]
  rfl

/-! ## Claim C5: empty keyframe list with the flag true -/

/-- A document whose single layer's transform rotation is `{a:1, k:[]}`;
used to show the malformed-keyframes failure is terminal for the whole
document decode. -/
def emptyKfDocJson : Json :=
  .obj [("ip", .num 0), ("op", .num 10), ("fr", .num 25),
        ("w", .num 16), ("h", .num 16),
        ("layers", .arr [.obj
          [("ip", .num 0), ("op", .num 10), ("st", .num 0),
           ("ks", .obj [("r", .obj [("a", .num 1), ("k", .arr [])])])]])]

/-- C5: an animated property whose flag is true but whose keyframe list is
empty fails with the malformed-keyframes decode error — never an `Animated`
with no keyframes — and the failure propagates, terminally, to the decode
of an enclosing document. -/
theorem C5_empty_keyframes_fail :
    (∀ (T : Type) (decT : Json → Except DecodeError T) (dflt : T)
       (fields : List (String × Json)) (av : ℚ),
      lookupField fields "a" = some (.num av) → av.den = 1 → av ≠ 0 →
      lookupField fields "k" = some (.arr []) →
      decodeAnimated decT dflt (.obj fields) =
        .error (.malformedKeyframes "empty keyframe list")) ∧
    decodeModel 1 emptyKfDocJson =
      .error (.malformedKeyframes "empty keyframe list") := by
  constructor
  · intro T decT dflt fields av ha hden hne hk
    have hflag : fieldD fields "a" bool_from_int false = .ok true := by
      simp [fieldD, ha, bool_from_int, hden, hne]
    rw [decodeAnimated, hflag]
    simp only [ok_bind, hk, if_true]
  · rfl

/-- Witness for C1: the general backfill theorem applied to the spec's
concrete three-keyframe example. -/
theorem C1_keyframe_backfill_witness :
    kfExampleVal.animated = true ∧
    kfExampleVal.keyframes.length = kfExampleKjs.length := by
  have h := C1_keyframe_backfill.1 ℚ decodeNum 0 kfExampleFields 1
    kfExampleKjs kfExampleVal rfl (by decide) (by decide) rfl rfl
  exact ⟨h.1, h.2.1⟩

/-- Witness for C2: the constant-value theorem applied to `{a:0, k:5}`. -/
theorem C2_constant_value_witness :
    decodeAnimatedNum (.obj [("a", .num 0), ("k", .num 5)]) =
      .ok { animated := false,
            keyframes := [{ start_value := 5, end_value := 5,
                            start_frame := 0, end_frame := 0,
                            easing_out := none, easing_in := none }] } :=
  C2_constant_value 5 [("a", .num 0), ("k", .num 5)] (Or.inr rfl) rfl

/-- Witness for C5: the empty-list theorem applied to `{a:1, k:[]}`. -/
theorem C5_empty_keyframes_fail_witness :
    decodeAnimated decodeNum (0 : ℚ) (.obj [("a", .num 1), ("k", .arr [])]) =
      .error (.malformedKeyframes "empty keyframe list") :=
  C5_empty_keyframes_fail.1 ℚ decodeNum 0 [("a", .num 1), ("k", .arr [])] 1
    rfl (by decide) (by decide) rfl

/-! ## Claims C7 and C8: the duration query -/

/-- The spec's duration scenario input:
`{ip:0, op:30, fr:30, w:100, h:100, layers:[]}`. -/
def dur30Json : Json :=
  .obj [("ip", .num 0), ("op", .num 30), ("fr", .num 30),
        ("w", .num 100), ("h", .num 100), ("layers", .arr [])]

/-- The document the duration scenario decodes to. -/
def dur30Model : Model :=
  { name := none, version := none, start_frame := 0, end_frame := 30,
    frame_rate := 30, width := 100, height := 100, layers := [],
    assets := [], fonts := { list := [] } }

/-- C7: with a nonzero frame rate the duration query returns
`(end_frame - start_frame) / frame_rate` seconds, and the document decoded
from the spec's scenario input has duration exactly 1. -/
theorem C7_duration_seconds :
    (∀ m : Model, m.frame_rate ≠ 0 →
      m.duration = .finite ((m.end_frame - m.start_frame) / m.frame_rate)) ∧
    decodeModel 1 dur30Json = .ok dur30Model ∧
    dur30Model.duration = .finite 1 := by
  refine ⟨?_, rfl, ?_⟩
  · intro m h
    simp [Model.duration, h]
  · norm_num [Model.duration, dur30Model]

/-- Witness for C7: the duration formula applied to the decoded scenario
document. -/
theorem C7_duration_seconds_witness :
    dur30Model.duration =
      .finite ((dur30Model.end_frame - dur30Model.start_frame) /
        dur30Model.frame_rate) :=
  C7_duration_seconds.1 dur30Model (by norm_num [dur30Model])

/-- The scenario document with its frame rate set to zero. -/
def zeroRateModel : Model := { dur30Model with frame_rate := 0 }

/-- C8 counterexample: with frame rate 0 the duration query does not fail
fast — `Model::duration` is a plain total function with no error channel,
and at this concrete zero-rate document it returns the IEEE quotient ∞ to
the caller instead of reporting an error. -/
theorem C8_counterexample_returns_value :
    zeroRateModel.duration = F32Val.inf := by
  norm_num [Model.duration, zeroRateModel, dur30Model]

/-- C8 (amended): with frame rate 0 the duration query returns one of the
non-finite IEEE sentinels (∞, −∞ or NaN), never a finite number. -/
theorem C8_zero_rate_nonfinite :
    ∀ m : Model, m.frame_rate = 0 → m.duration.isFinite = false := by
  intro m h
  simp only [Model.duration, h, if_pos]
  split_ifs <;> rfl

/-- Witness for the amended C8 at the concrete zero-rate document. -/
theorem C8_zero_rate_nonfinite_witness :
    zeroRateModel.duration.isFinite = false :=
  C8_zero_rate_nonfinite zeroRateModel rfl

/-! ## Claim C10: `Transform::is_identity` -/

/-- C10: `is_identity` returns `false` for every transform value,
including the default transform (constant scale 100, opacity 100, zero
rotation, no anchor/position/skew). -/
theorem C10_is_identity_false :
    (∀ t : Transform, t.is_identity = false) ∧
    Transform.defaultTransform.is_identity = false :=
  ⟨fun _ => rfl, rfl⟩

/-! ## Claim C3: shape discriminant dispatch

Concrete minimal records for all 18 discriminant codes, and the expected
decoded variants. -/

def constNumJson : Json := .obj [("k", .num 7)]

def constNum7 : Animated ℚ :=
  { animated := false, keyframes := [KeyFrame.from_value 7] }

def constVecJson : Json := .obj [("k", .arr [.num 1, .num 2])]

def constVec12 : Animated Vector2D :=
  { animated := false, keyframes := [KeyFrame.from_value ⟨1, 2⟩] }

def constRgbJson : Json := .obj [("k", .arr [.num 0, .num 0, .num 1])]

def constRgbBlue : Animated Rgb :=
  { animated := false, keyframes := [KeyFrame.from_value ⟨0, 0, 255⟩] }

def constBezJson : Json :=
  .obj [("k", .obj [("v", .arr []), ("i", .arr []), ("o", .arr [])])]

def constBezVal : Animated (List Bezier) :=
  { animated := false,
    keyframes := [KeyFrame.from_value
      [{ closed := false, verticies := [], in_tangent := [], out_tangent := [] }]] }

def emptyColorsJson : Json := .obj [("k", .arr [])]

def emptyColors : AnimatedColorList := { animated := false, colors := [] }

def shapeJson_rc : Json :=
  .obj [("ty", .str "rc"), ("p", constVecJson), ("s", constVecJson),
        ("r", constNumJson)]

def shapeVal_rc : Shape :=
  .Rectangle { direction := .Clockwise, position := constVec12,
               size := constVec12, radius := constNum7 }

def shapeJson_el : Json :=
  .obj [("ty", .str "el"), ("p", constVecJson), ("s", constVecJson)]

def shapeVal_el : Shape :=
  .Ellipse { direction := .Clockwise, position := constVec12, size := constVec12 }

def shapeJson_sr : Json :=
  .obj [("ty", .str "sr"), ("p", constVecJson), ("or", constNumJson),
        ("os", constNumJson), ("ir", constNumJson), ("is", constNumJson),
        ("r", constNumJson), ("pt", constNumJson), ("sy", .num 1)]

def shapeVal_sr : Shape :=
  .PolyStar { direction := .Clockwise, position := constVec12,
              outer_radius := constNum7, outer_roundness := constNum7,
              inner_radius := constNum7, inner_roundness := constNum7,
              rotation := constNum7, points := constNum7, star_type := .Star }

def shapeJson_sh : Json := .obj [("ty", .str "sh"), ("ks", constBezJson)]

def shapeVal_sh : Shape := .Path constBezVal

def shapeJson_fl : Json :=
  .obj [("ty", .str "fl"), ("o", constNumJson), ("c", constRgbJson)]

def shapeVal_fl : Shape :=
  .Fill { opacity := constNum7, color := constRgbBlue, fill_rule := .NonZero }

def shapeJson_st : Json :=
  .obj [("ty", .str "st"), ("lc", .num 1), ("lj", .num 2), ("ml", .num 4),
        ("o", constNumJson), ("w", constNumJson), ("c", constRgbJson)]

def shapeVal_st : Shape :=
  .Stroke { line_cap := .Butt, line_join := .Round, miter_limit := 4,
            opacity := constNum7, width := constNum7, dashes := [],
            color := constRgbBlue }

def shapeJson_gf : Json :=
  .obj [("ty", .str "gf"), ("o", constNumJson), ("r", .num 1),
        ("s", constVecJson), ("e", constVecJson), ("t", .num 1),
        ("g", emptyColorsJson)]

def shapeVal_gf : Shape :=
  .GradientFill constNum7 .NonZero constVec12 constVec12 .Linear emptyColors

def shapeJson_gs : Json :=
  .obj [("ty", .str "gs"), ("lc", .num 1), ("lj", .num 1), ("ml", .num 4),
        ("o", constNumJson), ("w", constNumJson), ("s", constVecJson),
        ("e", constVecJson), ("t", .num 2), ("g", emptyColorsJson)]

def shapeVal_gs : Shape :=
  .GradientStroke .Butt .Miter 4 constNum7 constNum7 [] constVec12 constVec12
    .Radial emptyColors

def shapeJson_gr : Json := .obj [("ty", .str "gr"), ("it", .arr [])]

def shapeVal_gr : Shape := .Group []

def shapeJson_tr : Json := .obj [("ty", .str "tr")]

def shapeVal_tr : Shape := .Transform Transform.defaultTransform

def shapeJson_rp : Json :=
  .obj [("ty", .str "rp"), ("c", constNumJson), ("o", constNumJson),
        ("m", .num 1),
        ("tr", .obj [("p", constVecJson), ("s", constVecJson),
                     ("r", constNumJson), ("so", constNumJson),
                     ("eo", constNumJson)])]

def shapeVal_rp : Shape :=
  .Repeater constNum7 constNum7 .Above
    { anchor := Animated.defaultOf ⟨0, 0⟩, position := constVec12,
      scale := constVec12, rotation := constNum7, start_opacity := constNum7,
      end_opacity := constNum7, skew := none, skew_axis := none }

def shapeJson_tm : Json :=
  .obj [("ty", .str "tm"), ("s", constNumJson), ("e", constNumJson),
        ("o", constNumJson), ("m", .num 2)]

def shapeVal_tm : Shape :=
  .Trim constNum7 constNum7 constNum7 .Simultaneously

def shapeJson_rd : Json := .obj [("ty", .str "rd"), ("r", constNumJson)]

def shapeVal_rd : Shape := .RoundedCorners constNum7

def shapeJson_pb : Json := .obj [("ty", .str "pb"), ("a", constNumJson)]

def shapeVal_pb : Shape := .PuckerBloat constNum7

def shapeJson_tw : Json :=
  .obj [("ty", .str "tw"), ("a", constNumJson), ("c", constVecJson)]

def shapeVal_tw : Shape := .Twist constNum7 constVec12

def shapeJson_mm : Json := .obj [("ty", .str "mm"), ("mm", .num 1)]

def shapeVal_mm : Shape := .Merge .Unsupported

def shapeJson_op : Json :=
  .obj [("ty", .str "op"), ("a", constNumJson), ("lj", .num 3), ("ml", .num 4)]

def shapeVal_op : Shape := .OffsetPath constNum7 .Bevel 4

def shapeJson_zz : Json :=
  .obj [("ty", .str "zz"), ("r", constNumJson), ("s", constNumJson),
        ("pt", constNumJson)]

def shapeVal_zz : Shape := .ZigZag constNum7 constNum7 constNum7

/-- C3: decoding a shape record dispatches on the `ty` discriminant — each
of the 18 documented codes decodes a concrete record to exactly its
corresponding variant, and any record whose `ty` string is outside the set
fails the decode with the unknown-discriminant error (never skipped), with
`"xx"` as the spec's concrete instance. -/
theorem C3_shape_tag_dispatch :
    (decodeShape 2 shapeJson_rc = .ok shapeVal_rc ∧
     decodeShape 2 shapeJson_el = .ok shapeVal_el ∧
     decodeShape 2 shapeJson_sr = .ok shapeVal_sr ∧
     decodeShape 2 shapeJson_sh = .ok shapeVal_sh ∧
     decodeShape 2 shapeJson_fl = .ok shapeVal_fl ∧
     decodeShape 2 shapeJson_st = .ok shapeVal_st ∧
     decodeShape 2 shapeJson_gf = .ok shapeVal_gf ∧
     decodeShape 2 shapeJson_gs = .ok shapeVal_gs ∧
     decodeShape 2 shapeJson_gr = .ok shapeVal_gr ∧
     decodeShape 2 shapeJson_tr = .ok shapeVal_tr ∧
     decodeShape 2 shapeJson_rp = .ok shapeVal_rp ∧
     decodeShape 2 shapeJson_tm = .ok shapeVal_tm ∧
     decodeShape 2 shapeJson_rd = .ok shapeVal_rd ∧
     decodeShape 2 shapeJson_pb = .ok shapeVal_pb ∧
     decodeShape 2 shapeJson_tw = .ok shapeVal_tw ∧
     decodeShape 2 shapeJson_mm = .ok shapeVal_mm ∧
     decodeShape 2 shapeJson_op = .ok shapeVal_op ∧
     decodeShape 2 shapeJson_zz = .ok shapeVal_zz) ∧
    (∀ (fields : List (String × Json)) (tag : String) (fuel : ℕ),
      lookupField fields "ty" = some (.str tag) → tag ∉ shapeTyCodes →
      decodeShape (fuel + 1) (.obj fields) =
        .error (.unknownDiscriminant tag)) ∧
    decodeShape 1 (.obj [("ty", .str "xx")]) =
      .error (.unknownDiscriminant "xx") := by
  refine ⟨⟨rfl, rfl, rfl, rfl, ?_, ?_, rfl, rfl, rfl, rfl, rfl, rfl, rfl,
    rfl, rfl, rfl, rfl, rfl⟩, ?_, rfl⟩
  · show decodeShape (1 + 1) shapeJson_fl = .ok shapeVal_fl
    simp [shapeJson_fl, shapeVal_fl, decodeShape, decodeFill, reqField, fieldD,
      lookupField, constNumJson, constRgbJson, constNum7, constRgbBlue,
      decodeAnimatedNum, decodeAnimatedRgb, decodeAnimated, decodeNum,
      decodeRgb, Rgb.new_f32, f32_to_u8, bool_from_int, KeyFrame.from_value,
      decodeFillRule]
  · show decodeShape (1 + 1) shapeJson_st = .ok shapeVal_st
    simp [shapeJson_st, shapeVal_st, decodeShape, decodeStroke, reqField,
      fieldD, lookupField, constNumJson, constRgbJson, constNum7, constRgbBlue,
      decodeAnimatedNum, decodeAnimatedRgb, decodeAnimated, decodeNum,
      decodeRgb, Rgb.new_f32, f32_to_u8, bool_from_int, KeyFrame.from_value,
      decodeLineCap, decodeLineJoin, decodeReprU8]
  · intro fields tag fuel hty hnot
    simp only [decodeShape, hty]
    split <;> simp_all [shapeTyCodes]

/-- Witness for C3: the unknown-discriminant half applied to a record with
tag `"foo"`. -/
theorem C3_shape_tag_dispatch_witness :
    decodeShape 1 (.obj [("ty", .str "foo")]) =
      .error (.unknownDiscriminant "foo") :=
  C3_shape_tag_dispatch.2.1 [("ty", .str "foo")] "foo" 0 rfl (by decide)

/-! ## Claim C6: merge-mode forward compatibility -/

/-- C6: for every integer in the `u8` discriminant domain (no value
corresponds to a supported merge operator — the only declared variant is
the catch-all), decoding a `{ty:"mm"}` record succeeds and yields the
`Unsupported` sentinel instead of failing. -/
theorem C6_merge_mode_unsupported :
    ∀ (n : ℕ), n < 256 → ∀ fuel : ℕ,
      decodeShape (fuel + 1) (.obj [("ty", .str "mm"), ("mm", .num n)]) =
        .ok (.Merge .Unsupported) := by
  intro n h fuel
  have hs : "ty" ≠ "mm" := by decide
  have hcond : ((n : ℚ).den = 1 ∧ 0 ≤ (n : ℚ).num ∧ (n : ℚ).num < 256) :=
    ⟨rfl, by exact_mod_cast n.zero_le, by exact_mod_cast h⟩
  simp [decodeShape, lookupField, reqField, decodeMergeMode, decodeReprU8,
    hs, hcond, h]

/-- Witness for C6 at the undeclared discriminant value 77. -/
theorem C6_merge_mode_unsupported_witness :
    decodeShape 1 (.obj [("ty", .str "mm"), ("mm", .num ((77 : ℕ) : ℚ))]) =
      .ok (.Merge .Unsupported) :=
  C6_merge_mode_unsupported 77 (by decide) 0

/-! ## Claim C9: the bezier parallel-lists invariant -/

/-- A bezier record whose three coordinate arrays have lengths 2, 1, 1. -/
def bezBadJson : Json :=
  .obj [("v", .arr [.arr [.num 0, .num 0], .arr [.num 1, .num 1]]),
        ("i", .arr [.arr [.num 0, .num 0]]),
        ("o", .arr [.arr [.num 2, .num 2]])]

/-- The value the mismatched record decodes to. -/
def bezBadVal : Bezier :=
  { closed := false, verticies := [⟨0, 0⟩, ⟨1, 1⟩],
    in_tangent := [⟨0, 0⟩], out_tangent := [⟨2, 2⟩] }

/-- C9 counterexample: the decoder accepts a bezier record whose three
coordinate arrays have different lengths — the decode succeeds and the
resulting value violates the equal-length invariant, so the invariant does
not hold for every successfully decoded path. -/
theorem C9_counterexample_unequal_lists :
    decodeBezier bezBadJson = .ok bezBadVal ∧
    ¬(bezBadVal.verticies.length = bezBadVal.in_tangent.length ∧
      bezBadVal.in_tangent.length = bezBadVal.out_tangent.length) :=
  ⟨rfl, by decide⟩

/-- C9 (amended): each decoded coordinate list has exactly the length of
its source array — the three lists are decoded independently, so they have
identical length precisely when the three source arrays do; the decoder
itself enforces no cross-list equality. -/
theorem C9_bezier_lengths_from_source :
    ∀ (fields : List (String × Json)) (b : Bezier) (vj ij oj : List Json),
      decodeBezier (.obj fields) = .ok b →
      lookupField fields "v" = some (.arr vj) →
      lookupField fields "i" = some (.arr ij) →
      lookupField fields "o" = some (.arr oj) →
      b.verticies.length = vj.length ∧ b.in_tangent.length = ij.length ∧
        b.out_tangent.length = oj.length := by
  intro fields b vj ij oj hdec hv hi ho
  simp only [decodeBezier, bind_ok_iff, Except.ok.injEq] at hdec
  obtain ⟨c, _, v, hvd, i, hid, o, hod, hb⟩ := hdec
  subst hb
  rw [reqField, hv] at hvd
  rw [reqField, hi] at hid
  rw [reqField, ho] at hod
  simp only [vec_from_array] at hvd hid hod
  exact ⟨decodeList_length hvd, decodeList_length hid, decodeList_length hod⟩

/-- Witness for the amended C9 at a record whose three arrays each hold
one coordinate pair. -/
theorem C9_bezier_lengths_from_source_witness :
    bezBadVal.in_tangent.length = 1 ∧ bezBadVal.out_tangent.length = 1 := by
  have h := C9_bezier_lengths_from_source
    [("v", .arr [.arr [.num 0, .num 0], .arr [.num 1, .num 1]]),
     ("i", .arr [.arr [.num 0, .num 0]]),
     ("o", .arr [.arr [.num 2, .num 2]])]
    bezBadVal
    [.arr [.num 0, .num 0], .arr [.num 1, .num 1]]
    [.arr [.num 0, .num 0]]
    [.arr [.num 2, .num 2]]
    rfl rfl rfl rfl
  exact ⟨h.2.1, h.2.2⟩

/-! ## Round-trip lemmas for the primitive coercions (towards C4) -/

theorem optField_ok {α : Type} {fields : List (String × Json)} {key : String}
    {d : Json → Except DecodeError α} {x : Option α}
    (h : optField fields key d = .ok x) :
    x = none ∨ ∃ j v, d j = .ok v ∧ x = some v := by
  rw [optField] at h
  split at h
  · left
    simpa using h.symm
  · left
    simpa using h.symm
  · right
    rename_i j hj1 hj2
    simp only [bind_ok_iff, Except.ok.injEq] at h
    obtain ⟨v, hv, hx⟩ := h
    exact ⟨j, v, hv, hx.symm⟩

theorem fieldD_ok {α : Type} {fields : List (String × Json)} {key : String}
    {d : Json → Except DecodeError α} {dflt x : α}
    (h : fieldD fields key d dflt = .ok x) :
    x = dflt ∨ ∃ j, d j = .ok x := by
  rw [fieldD] at h
  split at h
  · left
    simpa using h.symm
  · right
    exact ⟨_, h⟩

theorem reqField_ok {α : Type} {fields : List (String × Json)} {key : String}
    {d : Json → Except DecodeError α} {x : α}
    (h : reqField fields key d = .ok x) : ∃ j, d j = .ok x := by
  rw [reqField] at h
  split at h
  · exact ⟨_, h⟩
  · simp at h

theorem decodeU32_roundtrip {j : Json} {n : ℕ} (h : decodeU32 j = .ok n) :
    decodeU32 (encodeU32 n) = .ok n := by
  cases j with
  | num q =>
    rw [decodeU32] at h
    split at h
    · rename_i hc
      obtain ⟨hd, hpos, hlt⟩ := hc
      simp only [Except.ok.injEq] at h
      subst h
      simp [decodeU32, encodeU32, Int.toNat_of_nonneg hpos, hpos, hlt]
    · simp at h
  | null => simp [decodeU32] at h
  | bool b => simp [decodeU32] at h
  | str s => simp [decodeU32] at h
  | arr l => simp [decodeU32] at h
  | obj l => simp [decodeU32] at h

theorem bool_from_int_roundtrip (b : Bool) :
    bool_from_int (int_from_bool b) = .ok b := by
  cases b <;> simp [int_from_bool, bool_from_int]

theorem decodeList_map_enc {β : Type} {d : Json → Except DecodeError β}
    {enc : β → Json} {ys : List β} (h : ∀ y ∈ ys, d (enc y) = .ok y) :
    decodeList d (ys.map enc) = .ok ys := by
  induction ys with
  | nil => rfl
  | cons y rest ih =>
    simp only [List.map_cons, decodeList, h y (List.mem_cons_self _ _), ok_bind,
      ih (fun z hz => h z (List.mem_cons_of_mem _ hz))]

theorem afaon_enc (xs : List ℚ) :
    array_from_array_or_number (.arr (xs.map Json.num)) = .ok xs :=
  decodeList_map_enc fun _ _ => rfl

theorem vec_from_array_enc (vs : List Vector2D) :
    vec_from_array (array_from_vec vs) = .ok vs :=
  decodeList_map_enc fun _ _ => rfl

theorem decodeEasing_enc (e : Easing) :
    decodeEasing (encodeEasing e) = .ok e := by
  simp [decodeEasing, encodeEasing, reqField, lookupField, afaon_enc]

theorem f32_to_u8_le (q : ℚ) : f32_to_u8 q ≤ 255 := by
  rw [f32_to_u8]
  split
  · omega
  · omega

theorem f32_to_u8_natCast {n : ℕ} (h : n ≤ 255) : f32_to_u8 (n : ℚ) = n := by
  rw [f32_to_u8]
  split
  · rename_i hle
    have : (n : ℚ) = 0 := le_antisymm hle (by positivity)
    have : n = 0 := by exact_mod_cast this
    omega
  · simp only [Rat.num_natCast, Rat.den_natCast, Int.toNat_natCast, Nat.div_one]
    omega

theorem f32_to_u8_div255 {n : ℕ} (h : n ≤ 255) :
    f32_to_u8 ((n : ℚ) / 255 * 255) = n := by
  have h255 : ((n : ℚ) / 255 * 255) = (n : ℚ) := by
    field_simp
  rw [h255]
  exact f32_to_u8_natCast h

theorem decodeRgb_roundtrip {j : Json} {c : Rgb} (h : decodeRgb j = .ok c) :
    decodeRgb (encodeRgb c) = .ok c := by
  have hc : c.r ≤ 255 ∧ c.g ≤ 255 ∧ c.b ≤ 255 := by
    cases j with
    | arr items =>
      match items with
      | .num r :: .num g :: .num b :: rest =>
        simp only [decodeRgb, Except.ok.injEq] at h
        subst h
        exact ⟨f32_to_u8_le _, f32_to_u8_le _, f32_to_u8_le _⟩
      | [] => simp [decodeRgb] at h
      | [.num r] => simp [decodeRgb] at h
      | [.num r, .num g] => simp [decodeRgb] at h
      | .null :: rest => simp [decodeRgb] at h
      | .bool x :: rest => simp [decodeRgb] at h
      | .str x :: rest => simp [decodeRgb] at h
      | .arr x :: rest => simp [decodeRgb] at h
      | .obj x :: rest => simp [decodeRgb] at h
      | .num r :: .null :: rest => simp [decodeRgb] at h
      | .num r :: .bool x :: rest => simp [decodeRgb] at h
      | .num r :: .str x :: rest => simp [decodeRgb] at h
      | .num r :: .arr x :: rest => simp [decodeRgb] at h
      | .num r :: .obj x :: rest => simp [decodeRgb] at h
      | .num r :: .num g :: .null :: rest => simp [decodeRgb] at h
      | .num r :: .num g :: .bool x :: rest => simp [decodeRgb] at h
      | .num r :: .num g :: .str x :: rest => simp [decodeRgb] at h
      | .num r :: .num g :: .arr x :: rest => simp [decodeRgb] at h
      | .num r :: .num g :: .obj x :: rest => simp [decodeRgb] at h
    | null => simp [decodeRgb] at h
    | bool b => simp [decodeRgb] at h
    | num q => simp [decodeRgb] at h
    | str s => simp [decodeRgb] at h
    | obj l => simp [decodeRgb] at h
  obtain ⟨h1, h2, h3⟩ := hc
  cases c
  simp only [decodeRgb, encodeRgb, Rgb.new_f32, Except.ok.injEq, Rgb.mk.injEq]
  have e : ∀ n : ℕ, ((n : ℚ)) / 255 * 255 = (n : ℚ) := fun n => by field_simp
  rw [e, e, e]
  exact ⟨f32_to_u8_natCast h1, f32_to_u8_natCast h2, f32_to_u8_natCast h3⟩

theorem decodePolyStarType_enc (v : PolyStarType) :
    decodePolyStarType (encodePolyStarType v) = .ok v := by
  cases v <;> rfl

theorem decodeFillRule_enc (v : FillRule) :
    decodeFillRule (encodeFillRule v) = .ok v := by
  cases v <;> rfl

theorem decodeLineCap_enc (v : LineCap) :
    decodeLineCap (encodeLineCap v) = .ok v := by
  cases v <;> rfl

theorem decodeLineJoin_enc (v : LineJoin) :
    decodeLineJoin (encodeLineJoin v) = .ok v := by
  cases v <;> rfl

theorem decodeGradientType_enc (v : GradientType) :
    decodeGradientType (encodeGradientType v) = .ok v := by
  cases v <;> rfl

theorem decodeComposite_enc (v : Composite) :
    decodeComposite (encodeComposite v) = .ok v := by
  cases v <;> rfl

theorem decodeTrimMultipleShape_enc (v : TrimMultipleShape) :
    decodeTrimMultipleShape (encodeTrimMultipleShape v) = .ok v := by
  cases v <;> rfl

theorem decodeShapeDirection_enc (v : ShapeDirection) :
    decodeShapeDirection (encodeShapeDirection v) = .ok v := by
  cases v <;> rfl

theorem decodeMergeMode_enc (v : MergeMode) :
    decodeMergeMode (encodeMergeMode v) = .ok v := by
  cases v
  rfl

theorem decodeFontPathOrigin_enc (v : FontPathOrigin) :
    decodeFontPathOrigin (encodeFontPathOrigin v) = .ok v := by
  cases v <;> rfl

theorem decodeStrokeDashType_enc (v : StrokeDashType) :
    decodeStrokeDashType (encodeStrokeDashType v) = .ok v := by
  cases v <;> rfl

theorem decodeRgbaStop_roundtrip {j : Json} {c : Rgba}
    (h : decodeRgbaStop j = .ok c) :
    decodeRgbaStop (encodeRgbaStop c) = .ok c := by
  have hc : c.r ≤ 255 ∧ c.g ≤ 255 ∧ c.b ≤ 255 ∧ c.a ≤ 255 := by
    cases j with
    | arr items =>
      match items with
      | [.num r, .num g, .num b, .num a] =>
        simp only [decodeRgbaStop, Except.ok.injEq] at h
        subst h
        exact ⟨f32_to_u8_le _, f32_to_u8_le _, f32_to_u8_le _, f32_to_u8_le _⟩
      | [] => simp [decodeRgbaStop] at h
      | [x] => simp [decodeRgbaStop] at h
      | [x, y] => simp [decodeRgbaStop] at h
      | [x, y, z] => simp [decodeRgbaStop] at h
      | x :: y :: z :: w :: u :: rest => simp [decodeRgbaStop] at h
      | [.null, y, z, w] => simp [decodeRgbaStop] at h
      | [.bool v, y, z, w] => simp [decodeRgbaStop] at h
      | [.str v, y, z, w] => simp [decodeRgbaStop] at h
      | [.arr v, y, z, w] => simp [decodeRgbaStop] at h
      | [.obj v, y, z, w] => simp [decodeRgbaStop] at h
      | [.num r, .null, z, w] => simp [decodeRgbaStop] at h
      | [.num r, .bool v, z, w] => simp [decodeRgbaStop] at h
      | [.num r, .str v, z, w] => simp [decodeRgbaStop] at h
      | [.num r, .arr v, z, w] => simp [decodeRgbaStop] at h
      | [.num r, .obj v, z, w] => simp [decodeRgbaStop] at h
      | [.num r, .num g, .null, w] => simp [decodeRgbaStop] at h
      | [.num r, .num g, .bool v, w] => simp [decodeRgbaStop] at h
      | [.num r, .num g, .str v, w] => simp [decodeRgbaStop] at h
      | [.num r, .num g, .arr v, w] => simp [decodeRgbaStop] at h
      | [.num r, .num g, .obj v, w] => simp [decodeRgbaStop] at h
      | [.num r, .num g, .num b, .null] => simp [decodeRgbaStop] at h
      | [.num r, .num g, .num b, .bool v] => simp [decodeRgbaStop] at h
      | [.num r, .num g, .num b, .str v] => simp [decodeRgbaStop] at h
      | [.num r, .num g, .num b, .arr v] => simp [decodeRgbaStop] at h
      | [.num r, .num g, .num b, .obj v] => simp [decodeRgbaStop] at h
    | null => simp [decodeRgbaStop] at h
    | bool b => simp [decodeRgbaStop] at h
    | num q => simp [decodeRgbaStop] at h
    | str s => simp [decodeRgbaStop] at h
    | obj l => simp [decodeRgbaStop] at h
  obtain ⟨h1, h2, h3, h4⟩ := hc
  cases c
  simp only [decodeRgbaStop, encodeRgbaStop, Except.ok.injEq, Rgba.mk.injEq]
  have e : ∀ n : ℕ, ((n : ℚ)) / 255 * 255 = (n : ℚ) := fun n => by field_simp
  rw [e, e, e, e]
  exact ⟨f32_to_u8_natCast h1, f32_to_u8_natCast h2, f32_to_u8_natCast h3,
    f32_to_u8_natCast h4⟩

theorem decodeAnimatedColorList_roundtrip {j : Json} {l : AnimatedColorList}
    (h : decodeAnimatedColorList j = .ok l) :
    decodeAnimatedColorList (encodeAnimatedColorList l) = .ok l := by
  cases j with
  | obj fields =>
    simp only [decodeAnimatedColorList, bind_ok_iff, Except.ok.injEq] at h
    obtain ⟨a, ha, ks, hks, hl⟩ := h
    subst hl
    obtain ⟨jk, hjk⟩ := reqField_ok hks
    have hstops : ∀ c ∈ ks, decodeRgbaStop (encodeRgbaStop c) = .ok c := by
      intro c hcm
      cases jk with
      | arr items =>
        simp only [decodeRgbaStopList] at hjk
        obtain ⟨x, _, hx⟩ :=
          forall2_of_mem_right (decodeList_ok_iff.mp hjk) hcm
        exact decodeRgbaStop_roundtrip hx
      | null => simp [decodeRgbaStopList] at hjk
      | bool b => simp [decodeRgbaStopList] at hjk
      | num q => simp [decodeRgbaStopList] at hjk
      | str s => simp [decodeRgbaStopList] at hjk
      | obj l2 => simp [decodeRgbaStopList] at hjk
    simp [decodeAnimatedColorList, encodeAnimatedColorList, fieldD, reqField,
      lookupField, bool_from_int_roundtrip, decodeRgbaStopList,
      decodeList_map_enc hstops]
  | null => simp [decodeAnimatedColorList] at h
  | bool b => simp [decodeAnimatedColorList] at h
  | num q => simp [decodeAnimatedColorList] at h
  | str s => simp [decodeAnimatedColorList] at h
  | arr l2 => simp [decodeAnimatedColorList] at h

theorem decodeBezier_enc (b : Bezier) :
    decodeBezier (encodeBezier b) = .ok b := by
  simp [decodeBezier, encodeBezier, reqField, fieldD, lookupField,
    vec_from_array_enc, decodeBool]

theorem decodeBezierList_enc (bs : List Bezier) :
    decodeBezierList (encodeBezierList bs) = .ok bs := by
  match bs with
  | [b] =>
    have h := decodeBezier_enc b
    rw [encodeBezierList]
    cases hb : encodeBezier b with
    | obj fields =>
      rw [hb] at h
      simp [decodeBezierList, h]
    | null => rw [hb] at h; simp [decodeBezier] at h
    | bool v => rw [hb] at h; simp [decodeBezier] at h
    | num v => rw [hb] at h; simp [decodeBezier] at h
    | str v => rw [hb] at h; simp [decodeBezier] at h
    | arr v => rw [hb] at h; simp [decodeBezier] at h
  | [] => rfl
  | b1 :: b2 :: rest =>
    have h2 : decodeList decodeBezier ((b1 :: b2 :: rest).map encodeBezier) =
        .ok (b1 :: b2 :: rest) :=
      decodeList_map_enc (fun y _ => decodeBezier_enc y)
    rw [encodeBezierList]
    · simpa [decodeBezierList] using h2
    · intro b hb
      simp at hb

/-! ## Round-trip machinery for the keyframe backfill -/

/-- The literal (pre-backfill) form of a keyframe: end fields at their
serde-skip defaults. -/
def stripKF (dflt : T) (k : KeyFrame T) : KeyFrame T :=
  { k with end_value := dflt, end_frame := 0 }

theorem stripKF_of_decoded {T : Type} {decT : Json → Except DecodeError T}
    {dflt : T} {j : Json} {k : KeyFrame T}
    (h : decodeKeyFrame decT dflt j = .ok k) : stripKF dflt k = k := by
  obtain ⟨he, hf⟩ := decodeKeyFrame_ok_ends h
  cases k
  simp_all [stripKF]

theorem backfill_map_stripKF {T : Type} (dflt : T) (ks : List (KeyFrame T)) :
    (backfill ks).map (stripKF dflt) = ks.map (stripKF dflt) := by
  induction ks with
  | nil => rfl
  | cons k rest ih =>
    cases rest with
    | nil => rfl
    | cons k2 rest2 =>
      simp only [backfill, List.map_cons] at ih ⊢
      rw [ih]
      simp [stripKF]

theorem backfill_mem_start {T : Type} {ks : List (KeyFrame T)} {k' : KeyFrame T}
    (h : k' ∈ backfill ks) : ∃ k ∈ ks, k'.start_value = k.start_value := by
  induction ks with
  | nil => simp [backfill] at h
  | cons k rest ih =>
    cases rest with
    | nil =>
      simp only [backfill, List.mem_singleton] at h
      subst h
      exact ⟨_, List.mem_cons_self _ _, rfl⟩
    | cons k2 rest2 =>
      simp only [backfill, List.mem_cons] at h
      rcases h with rfl | h2
      · exact ⟨k, List.mem_cons_self _ _, rfl⟩
      · obtain ⟨k0, hk0, he⟩ := ih h2
        exact ⟨k0, List.mem_cons_of_mem _ hk0, he⟩

theorem decodeKeyFrame_start_witness {T : Type}
    {decT : Json → Except DecodeError T} {dflt : T} {j : Json} {k : KeyFrame T}
    (h : decodeKeyFrame decT dflt j = .ok k) :
    ∃ jv, decT jv = .ok k.start_value := by
  cases j with
  | obj fields =>
    simp only [decodeKeyFrame, bind_ok_iff, Except.ok.injEq] at h
    obtain ⟨s, hs, t, _, o, _, i, _, hk⟩ := h
    subst hk
    exact reqField_ok hs
  | null => simp [decodeKeyFrame] at h
  | bool b => simp [decodeKeyFrame] at h
  | num q => simp [decodeKeyFrame] at h
  | str s => simp [decodeKeyFrame] at h
  | arr items => simp [decodeKeyFrame] at h

theorem decodeKeyFrame_enc {T : Type} {decT : Json → Except DecodeError T}
    {encT : T → Json} {dflt : T} {k : KeyFrame T}
    (hs : decT (encT k.start_value) = .ok k.start_value) :
    decodeKeyFrame decT dflt (encodeKeyFrame encT k) = .ok (stripKF dflt k) := by
  rcases k with ⟨sv, ev, sf, ef, eo, ei⟩
  simp only at hs
  rcases eo with _ | e1 <;> rcases ei with _ | e2 <;>
    simp [decodeKeyFrame, encodeKeyFrame, reqField, fieldD, optField,
      lookupField, hs, decodeNum, encodeOpt, encodeEasing, decodeEasing,
      afaon_enc, stripKF]

theorem decodeList_kf_enc {T : Type} {decT : Json → Except DecodeError T}
    {encT : T → Json} {dflt : T} {l : List (KeyFrame T)}
    (hstart : ∀ k ∈ l, decT (encT k.start_value) = .ok k.start_value) :
    decodeList (decodeKeyFrame decT dflt) (l.map (encodeKeyFrame encT)) =
      .ok (l.map (stripKF dflt)) := by
  induction l with
  | nil => rfl
  | cons k rest ih =>
    simp only [List.map_cons, decodeList,
      decodeKeyFrame_enc (hstart k (List.mem_cons_self _ _)), ok_bind,
      ih (fun z hz => hstart z (List.mem_cons_of_mem _ hz))]

/-- The central round trip: re-decoding an encoded `Animated<T>` that came
from a decode gives the same value back, provided the value type's decoder
round trips on its own encode. -/
theorem decodeAnimated_roundtrip {T : Type} {decT : Json → Except DecodeError T}
    {encT : T → Json} {dflt : T}
    (hT : ∀ (j : Json) (v : T), decT j = .ok v → decT (encT v) = .ok v) :
    ∀ {j : Json} {A : Animated T}, decodeAnimated decT dflt j = .ok A →
      decodeAnimated decT dflt (encodeAnimated encT A) = .ok A := by
  intro j A h
  cases j with
  | obj fields =>
    simp only [decodeAnimated, bind_ok_iff] at h
    obtain ⟨aval, ha, h⟩ := h
    split at h
    · simp at h
    · cases aval with
      | false =>
        rw [if_neg Bool.false_ne_true] at h
        split at h
        · rename_i v heq
          simp only [Except.ok.injEq] at h
          subst h
          have hv := hT _ v heq
          simp [decodeAnimated, encodeAnimated, int_from_bool,
            array_from_keyframes, fieldD, lookupField, bool_from_int,
            KeyFrame.from_value, hv]
        · rename_i e heq
          split at h
          · rename_i kfj
            simp only [bind_ok_iff, Except.ok.injEq] at h
            obtain ⟨kf, hkf, hA⟩ := h
            subst hA
            obtain ⟨jv, hjv⟩ := decodeKeyFrame_start_witness hkf
            have hv := hT jv _ hjv
            simp [decodeAnimated, encodeAnimated, int_from_bool,
              array_from_keyframes, fieldD, lookupField, bool_from_int,
              KeyFrame.from_value, hv]
          · simp at h
      | true =>
        rw [if_pos rfl] at h
        split at h
        · simp at h
        · rename_i j0 rest
          simp only [bind_ok_iff, Except.ok.injEq] at h
          obtain ⟨ks, hks, hA⟩ := h
          subst hA
          have hf2 := decodeList_ok_iff.mp hks
          have hstart0 : ∀ k ∈ ks, decT (encT k.start_value) = .ok k.start_value := by
            intro k hk
            obtain ⟨x, _, hx⟩ := forall2_of_mem_right hf2 hk
            obtain ⟨jv, hjv⟩ := decodeKeyFrame_start_witness hx
            exact hT jv _ hjv
          have hstart : ∀ k ∈ backfill ks,
              decT (encT k.start_value) = .ok k.start_value := by
            intro k hk
            obtain ⟨k0, hk0, he⟩ := backfill_mem_start hk
            rw [he]
            exact hstart0 k0 hk0
          have hdl : decodeList (decodeKeyFrame decT dflt)
              ((backfill ks).map (encodeKeyFrame encT)) =
              .ok ((backfill ks).map (stripKF dflt)) :=
            decodeList_kf_enc hstart
          have hmap : (backfill ks).map (stripKF dflt) = ks := by
            rw [backfill_map_stripKF]
            have hid : ∀ k ∈ ks, stripKF dflt k = k := by
              intro k hk
              obtain ⟨x, _, hx⟩ := forall2_of_mem_right hf2 hk
              exact stripKF_of_decoded hx
            calc ks.map (stripKF dflt) = ks.map id := List.map_congr_left hid
              _ = ks := List.map_id ks
          rw [hmap] at hdl
          obtain ⟨k0, ks', rfl⟩ : ∃ k0 ks', ks = k0 :: ks' := by
            cases ks with
            | nil => exact absurd (by simpa using hf2.length_eq) j0
            | cons a b => exact ⟨a, b, rfl⟩
          cases ks' with
          | nil =>
            simp [decodeAnimated, encodeAnimated, int_from_bool,
              array_from_keyframes, fieldD, lookupField, bool_from_int,
              backfill] at hdl ⊢
            simp [hdl, backfill]
          | cons k1 ks2 =>
            simp only [backfill] at hdl ⊢
            simp [decodeAnimated, encodeAnimated, int_from_bool,
              array_from_keyframes, fieldD, lookupField, bool_from_int] at hdl ⊢
            simp [hdl, backfill]
        · simp at h
  | null => simp [decodeAnimated] at h
  | bool b => simp [decodeAnimated] at h
  | num q => simp [decodeAnimated] at h
  | str s => simp [decodeAnimated] at h
  | arr items => simp [decodeAnimated] at h


/-! ## Per-value-type round trips for the animated container -/

theorem decodeAnimatedNum_rt {j : Json} {A : Animated ℚ}
    (h : decodeAnimatedNum j = .ok A) :
    decodeAnimatedNum (encodeAnimatedNum A) = .ok A :=
  decodeAnimated_roundtrip
    (fun (_ : Json) (v : ℚ) (_ : decodeNum _ = .ok v) =>
      (rfl : decodeNum (encodeNum v) = .ok v)) h

theorem decodeAnimatedVec2_rt {j : Json} {A : Animated Vector2D}
    (h : decodeAnimatedVec2 j = .ok A) :
    decodeAnimatedVec2 (encodeAnimatedVec2 A) = .ok A :=
  decodeAnimated_roundtrip
    (fun (_ : Json) (v : Vector2D) (_ : decodeVec2 _ = .ok v) =>
      (rfl : decodeVec2 (encodeVec2 v) = .ok v)) h

theorem decodeAnimatedRgb_rt {j : Json} {A : Animated Rgb}
    (h : decodeAnimatedRgb j = .ok A) :
    decodeAnimatedRgb (encodeAnimatedRgb A) = .ok A :=
  decodeAnimated_roundtrip (fun _ _ hv => decodeRgb_roundtrip hv) h

theorem decodeAnimatedBezier_rt {j : Json} {A : Animated (List Bezier)}
    (h : decodeAnimatedBezier j = .ok A) :
    decodeAnimatedBezier (encodeAnimatedBezier A) = .ok A :=
  decodeAnimated_roundtrip (fun _ v _ => decodeBezierList_enc v) h

/-! ## Field-combinator re-encode helpers -/

theorem optField_ok_some {α : Type} {fields : List (String × Json)} {key : String}
    {d : Json → Except DecodeError α} {x : Option α}
    (h : optField fields key d = .ok x) :
    ∀ v, x = some v → ∃ jj, d jj = .ok v := by
  intro v hv
  subst hv
  rcases optField_ok h with h0 | ⟨jj, v1, hv1, he⟩
  · simp at h0
  · obtain rfl : v1 = v := by
      have := he.symm
      simpa using this
    exact ⟨jj, hv1⟩

theorem optField_reenc {α : Type} {d : Json → Except DecodeError α}
    {enc : α → Json} {x : Option α}
    (hx : ∀ v, x = some v → d (enc v) = .ok v)
    (hnn : ∀ v, enc v ≠ .null)
    (fields2 : List (String × Json)) (key2 : String)
    (hlk : lookupField fields2 key2 = some (encodeOpt enc x)) :
    optField fields2 key2 d = .ok x := by
  rcases x with _ | v
  · rw [optField, hlk]
    rfl
  · have hd := hx v rfl
    rw [optField, hlk]
    show (match some (enc v) with
      | none => Except.ok none
      | some .null => .ok none
      | some jj => do
        let vv ← d jj
        .ok (some vv)) = .ok (some v)
    cases he : enc v with
    | null => exact absurd he (hnn v)
    | bool b => rw [he] at hd; simp [hd]
    | num q => rw [he] at hd; simp [hd]
    | str s => rw [he] at hd; simp [hd]
    | arr l => rw [he] at hd; simp [hd]
    | obj l => rw [he] at hd; simp [hd]

theorem fieldD_reenc {α : Type} {d : Json → Except DecodeError α} {dflt x : α}
    {jv : Json} (hd : d jv = .ok x) (fields2 : List (String × Json))
    (key2 : String) (hlk : lookupField fields2 key2 = some jv) :
    fieldD fields2 key2 d dflt = .ok x := by
  rw [fieldD, hlk]
  exact hd

theorem reqField_reenc {α : Type} {d : Json → Except DecodeError α} {x : α}
    {jv : Json} (hd : d jv = .ok x) (fields2 : List (String × Json))
    (key2 : String) (hlk : lookupField fields2 key2 = some jv) :
    reqField fields2 key2 d = .ok x := by
  rw [reqField, hlk]
  exact hd

theorem encodeAnimated_ne_null {T : Type} (encT : T → Json) (A : Animated T) :
    encodeAnimated encT A ≠ .null := by
  simp [encodeAnimated]

theorem lookupField_append_none {pre rest : List (String × Json)}
    {key : String} (h : lookupField pre key = none) :
    lookupField (pre ++ rest) key = lookupField rest key := by
  induction pre with
  | nil => rfl
  | cons kv tail ih =>
    rw [lookupField] at h
    rw [List.cons_append, lookupField]
    split at h
    · simp at h
    · rename_i hne
      rw [if_neg hne]
      exact ih h

theorem decodeTransform_roundtrip {j : Json} {t : Transform}
    (h : decodeTransform j = .ok t) (pre : List (String × Json))
    (q1 : lookupField pre "a" = none) (q2 : lookupField pre "p" = none)
    (q3 : lookupField pre "s" = none) (q4 : lookupField pre "r" = none)
    (q5 : lookupField pre "o" = none) (q6 : lookupField pre "sk" = none)
    (q7 : lookupField pre "sa" = none) :
    decodeTransform (.obj (pre ++ encodeTransformFields t)) = .ok t := by
  cases j with
  | obj fields =>
    simp only [decodeTransform, bind_ok_iff, Except.ok.injEq] at h
    obtain ⟨a, ha, p, hp, s, hs, r, hr, o, ho, sk, hsk, sa, hsa, ht⟩ := h
    subst ht
    set T0 : Transform :=
      { anchor := a, position := p, scale := s, rotation := r,
        auto_orient := false, opacity := o, skew := sk, skew_axis := sa }
      with hT0
    have Fa : optField (pre ++ encodeTransformFields T0) "a" decodeAnimatedVec2 =
        .ok a :=
      optField_reenc
        (fun v hv => decodeAnimatedVec2_rt
          (Exists.choose_spec (optField_ok_some ha v hv)))
        (fun v => encodeAnimated_ne_null encodeVec2 v)
        (pre ++ encodeTransformFields T0) "a" (by rw [lookupField_append_none q1]; rfl)
    have Fp : optField (pre ++ encodeTransformFields T0) "p" decodeAnimatedVec2 =
        .ok p :=
      optField_reenc
        (fun v hv => decodeAnimatedVec2_rt
          (Exists.choose_spec (optField_ok_some hp v hv)))
        (fun v => encodeAnimated_ne_null encodeVec2 v)
        (pre ++ encodeTransformFields T0) "p" (by rw [lookupField_append_none q2]; rfl)
    have Fs : fieldD (pre ++ encodeTransformFields T0) "s" decodeAnimatedVec2
        default_vec2_100 = .ok s := by
      refine fieldD_reenc ?_ (pre ++ encodeTransformFields T0) "s" (by rw [lookupField_append_none q3]; rfl)
      rcases fieldD_ok hs with h1 | ⟨j1, hj1⟩
      · subst h1
        rfl
      · exact decodeAnimatedVec2_rt hj1
    have Fr : fieldD (pre ++ encodeTransformFields T0) "r" decodeAnimatedNum
        (Animated.defaultOf 0) = .ok r := by
      refine fieldD_reenc ?_ (pre ++ encodeTransformFields T0) "r" (by rw [lookupField_append_none q4]; rfl)
      rcases fieldD_ok hr with h1 | ⟨j1, hj1⟩
      · subst h1
        rfl
      · exact decodeAnimatedNum_rt hj1
    have Fo : fieldD (pre ++ encodeTransformFields T0) "o" decodeAnimatedNum
        default_number_100 = .ok o := by
      refine fieldD_reenc ?_ (pre ++ encodeTransformFields T0) "o" (by rw [lookupField_append_none q5]; rfl)
      rcases fieldD_ok ho with h1 | ⟨j1, hj1⟩
      · subst h1
        rfl
      · exact decodeAnimatedNum_rt hj1
    have Fsk : optField (pre ++ encodeTransformFields T0) "sk" decodeAnimatedVec2 =
        .ok sk :=
      optField_reenc
        (fun v hv => decodeAnimatedVec2_rt
          (Exists.choose_spec (optField_ok_some hsk v hv)))
        (fun v => encodeAnimated_ne_null encodeVec2 v)
        (pre ++ encodeTransformFields T0) "sk" (by rw [lookupField_append_none q6]; rfl)
    have Fsa : optField (pre ++ encodeTransformFields T0) "sa" decodeAnimatedVec2 =
        .ok sa :=
      optField_reenc
        (fun v hv => decodeAnimatedVec2_rt
          (Exists.choose_spec (optField_ok_some hsa v hv)))
        (fun v => encodeAnimated_ne_null encodeVec2 v)
        (pre ++ encodeTransformFields T0) "sa" (by rw [lookupField_append_none q7]; rfl)
    show decodeTransform (.obj (pre ++ encodeTransformFields T0)) = .ok T0
    simp only [decodeTransform, Fa, Fp, Fs, Fr, Fo, Fsk, Fsa, ok_bind]
  | null => simp [decodeTransform] at h
  | bool b => simp [decodeTransform] at h
  | num q => simp [decodeTransform] at h
  | str s => simp [decodeTransform] at h
  | arr l => simp [decodeTransform] at h

theorem decodeList_rt_of_ok {β : Type} {d : Json → Except DecodeError β}
    {enc : β → Json} (hRT : ∀ {jj : Json} {y : β}, d jj = .ok y → d (enc y) = .ok y)
    {items : List Json} {ys : List β} (h : decodeList d items = .ok ys) :
    decodeList d (ys.map enc) = .ok ys := by
  apply decodeList_map_enc
  intro y hy
  obtain ⟨x, _, hx⟩ := forall2_of_mem_right (decodeList_ok_iff.mp h) hy
  exact hRT hx

theorem decodeStrokeDash_roundtrip {j : Json} {d : StrokeDash}
    (h : decodeStrokeDash j = .ok d) :
    decodeStrokeDash (encodeStrokeDash d) = .ok d := by
  cases j with
  | obj fields =>
    simp only [decodeStrokeDash, bind_ok_iff, Except.ok.injEq] at h
    obtain ⟨v, hv, n, hn, hd⟩ := h
    subst hd
    set D0 : StrokeDash := { length := v, ty := n } with hD0
    have Fv : reqField (encodeStrokeDashFields D0) "v" decodeAnimatedNum =
        .ok v :=
      reqField_reenc (decodeAnimatedNum_rt (Exists.choose_spec (reqField_ok hv)))
        (encodeStrokeDashFields D0) "v" rfl
    have Fn : reqField (encodeStrokeDashFields D0) "n" decodeStrokeDashType =
        .ok n :=
      reqField_reenc (decodeStrokeDashType_enc n)
        (encodeStrokeDashFields D0) "n" rfl
    show decodeStrokeDash (.obj (encodeStrokeDashFields D0)) = .ok D0
    simp only [decodeStrokeDash, Fv, Fn, ok_bind]
  | null => simp [decodeStrokeDash] at h
  | bool b => simp [decodeStrokeDash] at h
  | num q => simp [decodeStrokeDash] at h
  | str s => simp [decodeStrokeDash] at h
  | arr l => simp [decodeStrokeDash] at h

theorem decodeStrokeDashList_rt {j : Json} {ds : List StrokeDash}
    (h : decodeStrokeDashList j = .ok ds) :
    decodeStrokeDashList (.arr (ds.map encodeStrokeDash)) = .ok ds := by
  cases j with
  | arr items =>
    simp only [decodeStrokeDashList] at h ⊢
    exact decodeList_rt_of_ok (fun h2 => decodeStrokeDash_roundtrip h2) h
  | null => simp [decodeStrokeDashList] at h
  | bool b => simp [decodeStrokeDashList] at h
  | num q => simp [decodeStrokeDashList] at h
  | str s => simp [decodeStrokeDashList] at h
  | obj l => simp [decodeStrokeDashList] at h

theorem decodeFill_roundtrip {j : Json} {f : Fill} (h : decodeFill j = .ok f) (pre : List (String × Json))
    (q1 : lookupField pre "o" = none)
    (q2 : lookupField pre "c" = none)
    (q3 : lookupField pre "r" = none) :
    decodeFill (.obj (pre ++ encodeFillFields f)) = .ok f := by
  cases j with
  | obj fields =>
    simp only [decodeFill, bind_ok_iff, Except.ok.injEq] at h
    obtain ⟨o, ho, c, hc, r, hr, hf⟩ := h
    subst hf
    set F0 : Fill := { opacity := o, color := c, fill_rule := r } with hF0
    have Fo : reqField (pre ++ encodeFillFields F0) "o" decodeAnimatedNum = .ok o :=
      reqField_reenc (decodeAnimatedNum_rt (Exists.choose_spec (reqField_ok ho)))
        (pre ++ encodeFillFields F0) "o" (by rw [lookupField_append_none q1]; rfl)
    have Fc : reqField (pre ++ encodeFillFields F0) "c" decodeAnimatedRgb = .ok c :=
      reqField_reenc (decodeAnimatedRgb_rt (Exists.choose_spec (reqField_ok hc)))
        (pre ++ encodeFillFields F0) "c" (by rw [lookupField_append_none q2]; rfl)
    have Fr : fieldD (pre ++ encodeFillFields F0) "r" decodeFillRule .NonZero = .ok r :=
      fieldD_reenc (decodeFillRule_enc r) (pre ++ encodeFillFields F0) "r" (by rw [lookupField_append_none q3]; rfl)
    show decodeFill (.obj (pre ++ encodeFillFields F0)) = .ok F0
    simp only [decodeFill, Fo, Fc, Fr, ok_bind]
  | null => simp [decodeFill] at h
  | bool b => simp [decodeFill] at h
  | num q => simp [decodeFill] at h
  | str s => simp [decodeFill] at h
  | arr l => simp [decodeFill] at h

theorem decodeStroke_roundtrip {j : Json} {s : Stroke}
    (h : decodeStroke j = .ok s) (pre : List (String × Json))
    (q1 : lookupField pre "lc" = none)
    (q2 : lookupField pre "lj" = none)
    (q3 : lookupField pre "ml" = none)
    (q4 : lookupField pre "o" = none)
    (q5 : lookupField pre "w" = none)
    (q6 : lookupField pre "d" = none)
    (q7 : lookupField pre "c" = none) :
    decodeStroke (.obj (pre ++ encodeStrokeFields s)) = .ok s := by
  cases j with
  | obj fields =>
    simp only [decodeStroke, bind_ok_iff, Except.ok.injEq] at h
    obtain ⟨lc, hlc, lj, hlj, ml, hml, o, ho, w, hw, d, hd, c, hc, hs⟩ := h
    subst hs
    set S0 : Stroke :=
      { line_cap := lc, line_join := lj, miter_limit := ml,
        opacity := o, width := w, dashes := d, color := c } with hS0
    have Flc : reqField (pre ++ encodeStrokeFields S0) "lc" decodeLineCap = .ok lc :=
      reqField_reenc (decodeLineCap_enc lc) (pre ++ encodeStrokeFields S0) "lc" (by rw [lookupField_append_none q1]; rfl)
    have Flj : reqField (pre ++ encodeStrokeFields S0) "lj" decodeLineJoin = .ok lj :=
      reqField_reenc (decodeLineJoin_enc lj) (pre ++ encodeStrokeFields S0) "lj" (by rw [lookupField_append_none q2]; rfl)
    have Fml : reqField (pre ++ encodeStrokeFields S0) "ml" decodeNum = .ok ml :=
      reqField_reenc (rfl : decodeNum (.num ml) = .ok ml)
        (pre ++ encodeStrokeFields S0) "ml" (by rw [lookupField_append_none q3]; rfl)
    have Fo : reqField (pre ++ encodeStrokeFields S0) "o" decodeAnimatedNum = .ok o :=
      reqField_reenc (decodeAnimatedNum_rt (Exists.choose_spec (reqField_ok ho)))
        (pre ++ encodeStrokeFields S0) "o" (by rw [lookupField_append_none q4]; rfl)
    have Fw : reqField (pre ++ encodeStrokeFields S0) "w" decodeAnimatedNum = .ok w :=
      reqField_reenc (decodeAnimatedNum_rt (Exists.choose_spec (reqField_ok hw)))
        (pre ++ encodeStrokeFields S0) "w" (by rw [lookupField_append_none q5]; rfl)
    have Fd : fieldD (pre ++ encodeStrokeFields S0) "d" decodeStrokeDashList [] =
        .ok d := by
      refine fieldD_reenc ?_ (pre ++ encodeStrokeFields S0) "d" (by rw [lookupField_append_none q6]; rfl)
      rcases fieldD_ok hd with h1 | ⟨j1, hj1⟩
      · subst h1
        rfl
      · exact decodeStrokeDashList_rt hj1
    have Fc : reqField (pre ++ encodeStrokeFields S0) "c" decodeAnimatedRgb = .ok c :=
      reqField_reenc (decodeAnimatedRgb_rt (Exists.choose_spec (reqField_ok hc)))
        (pre ++ encodeStrokeFields S0) "c" (by rw [lookupField_append_none q7]; rfl)
    show decodeStroke (.obj (pre ++ encodeStrokeFields S0)) = .ok S0
    simp only [decodeStroke, Flc, Flj, Fml, Fo, Fw, Fd, Fc, ok_bind]
  | null => simp [decodeStroke] at h
  | bool b => simp [decodeStroke] at h
  | num q => simp [decodeStroke] at h
  | str s2 => simp [decodeStroke] at h
  | arr l => simp [decodeStroke] at h

theorem decodeRectangle_roundtrip {j : Json} {r : Rectangle}
    (h : decodeRectangle j = .ok r) (pre : List (String × Json))
    (q1 : lookupField pre "d" = none)
    (q2 : lookupField pre "p" = none)
    (q3 : lookupField pre "s" = none)
    (q4 : lookupField pre "r" = none) :
    decodeRectangle (.obj (pre ++ encodeRectangleFields r)) = .ok r := by
  cases j with
  | obj fields =>
    simp only [decodeRectangle, bind_ok_iff, Except.ok.injEq] at h
    obtain ⟨d, hd, p, hp, s, hs, ra, hra, hr⟩ := h
    subst hr
    set R0 : Rectangle :=
      { direction := d, position := p, size := s, radius := ra } with hR0
    have Fd : fieldD (pre ++ encodeRectangleFields R0) "d" decodeShapeDirection
        .Clockwise = .ok d :=
      fieldD_reenc (decodeShapeDirection_enc d) (pre ++ encodeRectangleFields R0)
        "d" (by rw [lookupField_append_none q1]; rfl)
    have Fp : reqField (pre ++ encodeRectangleFields R0) "p" decodeAnimatedVec2 =
        .ok p :=
      reqField_reenc (decodeAnimatedVec2_rt (Exists.choose_spec (reqField_ok hp)))
        (pre ++ encodeRectangleFields R0) "p" (by rw [lookupField_append_none q2]; rfl)
    have Fs : reqField (pre ++ encodeRectangleFields R0) "s" decodeAnimatedVec2 =
        .ok s :=
      reqField_reenc (decodeAnimatedVec2_rt (Exists.choose_spec (reqField_ok hs)))
        (pre ++ encodeRectangleFields R0) "s" (by rw [lookupField_append_none q3]; rfl)
    have Fr : reqField (pre ++ encodeRectangleFields R0) "r" decodeAnimatedNum =
        .ok ra :=
      reqField_reenc (decodeAnimatedNum_rt (Exists.choose_spec (reqField_ok hra)))
        (pre ++ encodeRectangleFields R0) "r" (by rw [lookupField_append_none q4]; rfl)
    show decodeRectangle (.obj (pre ++ encodeRectangleFields R0)) = .ok R0
    simp only [decodeRectangle, Fd, Fp, Fs, Fr, ok_bind]
  | null => simp [decodeRectangle] at h
  | bool b => simp [decodeRectangle] at h
  | num q => simp [decodeRectangle] at h
  | str s => simp [decodeRectangle] at h
  | arr l => simp [decodeRectangle] at h

theorem decodeEllipse_roundtrip {j : Json} {e : Ellipse}
    (h : decodeEllipse j = .ok e) (pre : List (String × Json))
    (q1 : lookupField pre "d" = none)
    (q2 : lookupField pre "p" = none)
    (q3 : lookupField pre "s" = none) :
    decodeEllipse (.obj (pre ++ encodeEllipseFields e)) = .ok e := by
  cases j with
  | obj fields =>
    simp only [decodeEllipse, bind_ok_iff, Except.ok.injEq] at h
    obtain ⟨d, hd, p, hp, s, hs, he⟩ := h
    subst he
    set E0 : Ellipse := { direction := d, position := p, size := s } with hE0
    have Fd : fieldD (pre ++ encodeEllipseFields E0) "d" decodeShapeDirection
        .Clockwise = .ok d :=
      fieldD_reenc (decodeShapeDirection_enc d) (pre ++ encodeEllipseFields E0) "d" (by rw [lookupField_append_none q1]; rfl)
    have Fp : reqField (pre ++ encodeEllipseFields E0) "p" decodeAnimatedVec2 =
        .ok p :=
      reqField_reenc (decodeAnimatedVec2_rt (Exists.choose_spec (reqField_ok hp)))
        (pre ++ encodeEllipseFields E0) "p" (by rw [lookupField_append_none q2]; rfl)
    have Fs : reqField (pre ++ encodeEllipseFields E0) "s" decodeAnimatedVec2 =
        .ok s :=
      reqField_reenc (decodeAnimatedVec2_rt (Exists.choose_spec (reqField_ok hs)))
        (pre ++ encodeEllipseFields E0) "s" (by rw [lookupField_append_none q3]; rfl)
    show decodeEllipse (.obj (pre ++ encodeEllipseFields E0)) = .ok E0
    simp only [decodeEllipse, Fd, Fp, Fs, ok_bind]
  | null => simp [decodeEllipse] at h
  | bool b => simp [decodeEllipse] at h
  | num q => simp [decodeEllipse] at h
  | str s => simp [decodeEllipse] at h
  | arr l => simp [decodeEllipse] at h

theorem decodePolyStar_roundtrip {j : Json} {p : PolyStar}
    (h : decodePolyStar j = .ok p) (pre : List (String × Json))
    (q1 : lookupField pre "d" = none)
    (q2 : lookupField pre "p" = none)
    (q3 : lookupField pre "or" = none)
    (q4 : lookupField pre "os" = none)
    (q5 : lookupField pre "ir" = none)
    (q6 : lookupField pre "is" = none)
    (q7 : lookupField pre "r" = none)
    (q8 : lookupField pre "pt" = none)
    (q9 : lookupField pre "sy" = none) :
    decodePolyStar (.obj (pre ++ encodePolyStarFields p)) = .ok p := by
  cases j with
  | obj fields =>
    simp only [decodePolyStar, bind_ok_iff, Except.ok.injEq] at h
    obtain ⟨d, hd, po, hpo, orr, horr, os, hos, ir, hir, isr, hisr, r, hr,
      pt, hpt, sy, hsy, hp⟩ := h
    subst hp
    set P0 : PolyStar :=
      { direction := d, position := po, outer_radius := orr,
        outer_roundness := os, inner_radius := ir, inner_roundness := isr,
        rotation := r, points := pt, star_type := sy } with hP0
    have Fd : fieldD (pre ++ encodePolyStarFields P0) "d" decodeShapeDirection
        .Clockwise = .ok d :=
      fieldD_reenc (decodeShapeDirection_enc d) (pre ++ encodePolyStarFields P0)
        "d" (by rw [lookupField_append_none q1]; rfl)
    have Fp : reqField (pre ++ encodePolyStarFields P0) "p" decodeAnimatedVec2 =
        .ok po :=
      reqField_reenc (decodeAnimatedVec2_rt (Exists.choose_spec (reqField_ok hpo)))
        (pre ++ encodePolyStarFields P0) "p" (by rw [lookupField_append_none q2]; rfl)
    have For : reqField (pre ++ encodePolyStarFields P0) "or" decodeAnimatedNum =
        .ok orr :=
      reqField_reenc (decodeAnimatedNum_rt (Exists.choose_spec (reqField_ok horr)))
        (pre ++ encodePolyStarFields P0) "or" (by rw [lookupField_append_none q3]; rfl)
    have Fos : reqField (pre ++ encodePolyStarFields P0) "os" decodeAnimatedNum =
        .ok os :=
      reqField_reenc (decodeAnimatedNum_rt (Exists.choose_spec (reqField_ok hos)))
        (pre ++ encodePolyStarFields P0) "os" (by rw [lookupField_append_none q4]; rfl)
    have Fir : reqField (pre ++ encodePolyStarFields P0) "ir" decodeAnimatedNum =
        .ok ir :=
      reqField_reenc (decodeAnimatedNum_rt (Exists.choose_spec (reqField_ok hir)))
        (pre ++ encodePolyStarFields P0) "ir" (by rw [lookupField_append_none q5]; rfl)
    have Fis : reqField (pre ++ encodePolyStarFields P0) "is" decodeAnimatedNum =
        .ok isr :=
      reqField_reenc (decodeAnimatedNum_rt (Exists.choose_spec (reqField_ok hisr)))
        (pre ++ encodePolyStarFields P0) "is" (by rw [lookupField_append_none q6]; rfl)
    have Fr : reqField (pre ++ encodePolyStarFields P0) "r" decodeAnimatedNum =
        .ok r :=
      reqField_reenc (decodeAnimatedNum_rt (Exists.choose_spec (reqField_ok hr)))
        (pre ++ encodePolyStarFields P0) "r" (by rw [lookupField_append_none q7]; rfl)
    have Fpt : reqField (pre ++ encodePolyStarFields P0) "pt" decodeAnimatedNum =
        .ok pt :=
      reqField_reenc (decodeAnimatedNum_rt (Exists.choose_spec (reqField_ok hpt)))
        (pre ++ encodePolyStarFields P0) "pt" (by rw [lookupField_append_none q8]; rfl)
    have Fsy : reqField (pre ++ encodePolyStarFields P0) "sy" decodePolyStarType =
        .ok sy :=
      reqField_reenc (decodePolyStarType_enc sy) (pre ++ encodePolyStarFields P0)
        "sy" (by rw [lookupField_append_none q9]; rfl)
    show decodePolyStar (.obj (pre ++ encodePolyStarFields P0)) = .ok P0
    simp only [decodePolyStar, Fd, Fp, For, Fos, Fir, Fis, Fr, Fpt, Fsy,
      ok_bind]
  | null => simp [decodePolyStar] at h
  | bool b => simp [decodePolyStar] at h
  | num q => simp [decodePolyStar] at h
  | str s => simp [decodePolyStar] at h
  | arr l => simp [decodePolyStar] at h

theorem decodeRepeaterTransform_roundtrip {j : Json} {t : RepeaterTransform}
    (h : decodeRepeaterTransform j = .ok t) :
    decodeRepeaterTransform (encodeRepeaterTransform t) = .ok t := by
  cases j with
  | obj fields =>
    simp only [decodeRepeaterTransform, bind_ok_iff, Except.ok.injEq] at h
    obtain ⟨a, ha, p, hp, s, hs, r, hr, so, hso, eo, heo, sk, hsk, sa, hsa,
      ht⟩ := h
    subst ht
    set T0 : RepeaterTransform :=
      { anchor := a, position := p, scale := s,
        rotation := r, start_opacity := so, end_opacity := eo, skew := sk,
        skew_axis := sa } with hT0
    have Fa : fieldD (encodeRepeaterTransformFields T0) "a" decodeAnimatedVec2
        (Animated.defaultOf ⟨0, 0⟩) = .ok a := by
      refine fieldD_reenc ?_ (encodeRepeaterTransformFields T0) "a" rfl
      rcases fieldD_ok ha with h1 | ⟨j1, hj1⟩
      · subst h1
        rfl
      · exact decodeAnimatedVec2_rt hj1
    have Fp : reqField (encodeRepeaterTransformFields T0) "p"
        decodeAnimatedVec2 = .ok p :=
      reqField_reenc (decodeAnimatedVec2_rt (Exists.choose_spec (reqField_ok hp)))
        (encodeRepeaterTransformFields T0) "p" rfl
    have Fs : reqField (encodeRepeaterTransformFields T0) "s"
        decodeAnimatedVec2 = .ok s :=
      reqField_reenc (decodeAnimatedVec2_rt (Exists.choose_spec (reqField_ok hs)))
        (encodeRepeaterTransformFields T0) "s" rfl
    have Fr : reqField (encodeRepeaterTransformFields T0) "r"
        decodeAnimatedNum = .ok r :=
      reqField_reenc (decodeAnimatedNum_rt (Exists.choose_spec (reqField_ok hr)))
        (encodeRepeaterTransformFields T0) "r" rfl
    have Fso : reqField (encodeRepeaterTransformFields T0) "so"
        decodeAnimatedNum = .ok so :=
      reqField_reenc (decodeAnimatedNum_rt (Exists.choose_spec (reqField_ok hso)))
        (encodeRepeaterTransformFields T0) "so" rfl
    have Feo : reqField (encodeRepeaterTransformFields T0) "eo"
        decodeAnimatedNum = .ok eo :=
      reqField_reenc (decodeAnimatedNum_rt (Exists.choose_spec (reqField_ok heo)))
        (encodeRepeaterTransformFields T0) "eo" rfl
    have Fsk : optField (encodeRepeaterTransformFields T0) "sk"
        decodeAnimatedVec2 = .ok sk :=
      optField_reenc
        (fun v hv => decodeAnimatedVec2_rt
          (Exists.choose_spec (optField_ok_some hsk v hv)))
        (fun v => encodeAnimated_ne_null encodeVec2 v)
        (encodeRepeaterTransformFields T0) "sk" rfl
    have Fsa : optField (encodeRepeaterTransformFields T0) "sa"
        decodeAnimatedVec2 = .ok sa :=
      optField_reenc
        (fun v hv => decodeAnimatedVec2_rt
          (Exists.choose_spec (optField_ok_some hsa v hv)))
        (fun v => encodeAnimated_ne_null encodeVec2 v)
        (encodeRepeaterTransformFields T0) "sa" rfl
    show decodeRepeaterTransform (.obj (encodeRepeaterTransformFields T0)) =
      .ok T0
    simp only [decodeRepeaterTransform, Fa, Fp, Fs, Fr, Fso, Feo, Fsk, Fsa,
      ok_bind]
  | null => simp [decodeRepeaterTransform] at h
  | bool b => simp [decodeRepeaterTransform] at h
  | num q => simp [decodeRepeaterTransform] at h
  | str s => simp [decodeRepeaterTransform] at h
  | arr l => simp [decodeRepeaterTransform] at h

theorem decodePreCompositionRef_roundtrip {j : Json} {r : PreCompositionRef}
    (h : decodePreCompositionRef j = .ok r) (pre : List (String × Json))
    (q1 : lookupField pre "refId" = none) (q2 : lookupField pre "w" = none)
    (q3 : lookupField pre "h" = none) (q4 : lookupField pre "tm" = none) :
    decodePreCompositionRef (.obj (pre ++ encodePreCompositionRefFields r)) =
      .ok r := by
  cases j with
  | obj fields =>
    simp only [decodePreCompositionRef, bind_ok_iff, Except.ok.injEq] at h
    obtain ⟨rid, hrid, w, hw, ht, hht, tm, htm, hr⟩ := h
    subst hr
    set R0 : PreCompositionRef :=
      { ref_id := rid, width := w, height := ht,
        time_remapping := tm } with hR0
    have Fid : reqField (pre ++ encodePreCompositionRefFields R0) "refId" decodeStr =
        .ok rid :=
      reqField_reenc (rfl : decodeStr (.str rid) = .ok rid)
        (pre ++ encodePreCompositionRefFields R0) "refId" (by rw [lookupField_append_none q1]; rfl)
    have Fw : reqField (pre ++ encodePreCompositionRefFields R0) "w" decodeU32 =
        .ok w :=
      reqField_reenc (decodeU32_roundtrip (Exists.choose_spec (reqField_ok hw)))
        (pre ++ encodePreCompositionRefFields R0) "w" (by rw [lookupField_append_none q2]; rfl)
    have Fh : reqField (pre ++ encodePreCompositionRefFields R0) "h" decodeU32 =
        .ok ht :=
      reqField_reenc (decodeU32_roundtrip (Exists.choose_spec (reqField_ok hht)))
        (pre ++ encodePreCompositionRefFields R0) "h" (by rw [lookupField_append_none q3]; rfl)
    have Ftm : optField (pre ++ encodePreCompositionRefFields R0) "tm"
        decodeAnimatedNum = .ok tm :=
      optField_reenc
        (fun v hv => decodeAnimatedNum_rt
          (Exists.choose_spec (optField_ok_some htm v hv)))
        (fun v => encodeAnimated_ne_null encodeNum v)
        (pre ++ encodePreCompositionRefFields R0) "tm" (by rw [lookupField_append_none q4]; rfl)
    show decodePreCompositionRef (.obj (pre ++ encodePreCompositionRefFields R0)) =
      .ok R0
    simp only [decodePreCompositionRef, Fid, Fw, Fh, Ftm, ok_bind]
  | null => simp [decodePreCompositionRef] at h
  | bool b => simp [decodePreCompositionRef] at h
  | num q => simp [decodePreCompositionRef] at h
  | str s => simp [decodePreCompositionRef] at h
  | arr l => simp [decodePreCompositionRef] at h

/-- Mutual round-trip for the shape decoders: re-decoding an encoded shape,
shape-layer list, or shape layer (at the same fuel) recovers the value. -/
theorem shape_roundtrip : ∀ fuel : ℕ,
    (∀ (j : Json) (s : Shape) (a b : Json), decodeShape fuel j = .ok s →
      decodeShape fuel (.obj (("nm", a) :: ("hd", b) :: encodeShapeFields s)) =
        .ok s) ∧
    (∀ (js : List Json) (ss : List ShapeLayer),
      decodeShapeLayers fuel js = .ok ss →
      decodeShapeLayers fuel (encodeShapeLayerList ss) = .ok ss) ∧
    (∀ (j : Json) (sl : ShapeLayer), decodeShapeLayer fuel j = .ok sl →
      decodeShapeLayer fuel (encodeShapeLayer sl) = .ok sl) := by
  intro fuel
  induction fuel with
  | zero =>
    refine ⟨?_, ?_, ?_⟩
    · intro j s a b h
      simp [decodeShape] at h
    · intro js ss h
      simp [decodeShapeLayers] at h
    · intro j sl h
      simp [decodeShapeLayer] at h
  | succ f ih =>
    obtain ⟨ihS, ihL, ih1⟩ := ih
    refine ⟨?_, ?_, ?_⟩
    · intro j s a b h
      cases j with
      | obj fields =>
        simp only [decodeShape] at h
        split at h
        · split at h
          · -- rc
            simp only [bind_ok_iff, Except.ok.injEq] at h
            obtain ⟨r, hr, hs⟩ := h
            subst hs
            have HR := decodeRectangle_roundtrip hr
              [("nm", a), ("hd", b), ("ty", .str "rc")] rfl rfl rfl rfl
            simp only [List.cons_append, List.nil_append] at HR
            show decodeShape (f + 1) (.obj (("nm", a) :: ("hd", b) ::
              ("ty", .str "rc") :: encodeRectangleFields r)) = .ok (.Rectangle r)
            simp [decodeShape, lookupField, HR]
          · -- el
            simp only [bind_ok_iff, Except.ok.injEq] at h
            obtain ⟨e, he, hs⟩ := h
            subst hs
            have HR := decodeEllipse_roundtrip he
              [("nm", a), ("hd", b), ("ty", .str "el")] rfl rfl rfl
            simp only [List.cons_append, List.nil_append] at HR
            show decodeShape (f + 1) (.obj (("nm", a) :: ("hd", b) ::
              ("ty", .str "el") :: encodeEllipseFields e)) = .ok (.Ellipse e)
            simp [decodeShape, lookupField, HR]
          · -- sr
            simp only [bind_ok_iff, Except.ok.injEq] at h
            obtain ⟨p, hp, hs⟩ := h
            subst hs
            have HR := decodePolyStar_roundtrip hp
              [("nm", a), ("hd", b), ("ty", .str "sr")] rfl rfl rfl rfl rfl rfl
              rfl rfl rfl
            simp only [List.cons_append, List.nil_append] at HR
            show decodeShape (f + 1) (.obj (("nm", a) :: ("hd", b) ::
              ("ty", .str "sr") :: encodePolyStarFields p)) = .ok (.PolyStar p)
            simp [decodeShape, lookupField, HR]
          · -- sh
            simp only [bind_ok_iff, Except.ok.injEq] at h
            obtain ⟨d, hd2, hs⟩ := h
            subst hs
            have F1 := decodeAnimatedBezier_rt (Exists.choose_spec (reqField_ok hd2))
            show decodeShape (f + 1) (.obj [("nm", a), ("hd", b),
              ("ty", .str "sh"), ("ks", encodeAnimatedBezier d)]) = .ok (.Path d)
            simp [decodeShape, lookupField, reqField, F1]
          · -- fl
            simp only [bind_ok_iff, Except.ok.injEq] at h
            obtain ⟨fl, hfl, hs⟩ := h
            subst hs
            have HR := decodeFill_roundtrip hfl
              [("nm", a), ("hd", b), ("ty", .str "fl")] rfl rfl rfl
            simp only [List.cons_append, List.nil_append] at HR
            show decodeShape (f + 1) (.obj (("nm", a) :: ("hd", b) ::
              ("ty", .str "fl") :: encodeFillFields fl)) = .ok (.Fill fl)
            simp [decodeShape, lookupField, HR]
          · -- st
            simp only [bind_ok_iff, Except.ok.injEq] at h
            obtain ⟨st, hst, hs⟩ := h
            subst hs
            have HR := decodeStroke_roundtrip hst
              [("nm", a), ("hd", b), ("ty", .str "st")] rfl rfl rfl rfl rfl rfl
              rfl
            simp only [List.cons_append, List.nil_append] at HR
            show decodeShape (f + 1) (.obj (("nm", a) :: ("hd", b) ::
              ("ty", .str "st") :: encodeStrokeFields st)) = .ok (.Stroke st)
            simp [decodeShape, lookupField, HR]
          · -- gf
            simp only [bind_ok_iff, Except.ok.injEq] at h
            obtain ⟨o, ho, r, hr, sg, hsg, e, he, t, ht, g, hg, hs⟩ := h
            subst hs
            have F1 := decodeAnimatedNum_rt (Exists.choose_spec (reqField_ok ho))
            have F2 := decodeFillRule_enc r
            have F3 := decodeAnimatedVec2_rt (Exists.choose_spec (reqField_ok hsg))
            have F4 := decodeAnimatedVec2_rt (Exists.choose_spec (reqField_ok he))
            have F5 := decodeGradientType_enc t
            have F6 := decodeAnimatedColorList_roundtrip
              (Exists.choose_spec (reqField_ok hg))
            show decodeShape (f + 1) (.obj [("nm", a), ("hd", b),
              ("ty", .str "gf"), ("o", encodeAnimatedNum o),
              ("r", encodeFillRule r), ("s", encodeAnimatedVec2 sg),
              ("e", encodeAnimatedVec2 e), ("t", encodeGradientType t),
              ("g", encodeAnimatedColorList g)]) = .ok (.GradientFill o r sg e t g)
            simp [decodeShape, lookupField, reqField, F1, F2, F3, F4, F5, F6]
          · -- gs
            simp only [bind_ok_iff, Except.ok.injEq] at h
            obtain ⟨lc, hlc, lj, hlj, ml, hml, o, ho, w, hw, d, hd2, sg, hsg,
              e, he, t, ht, g, hg, hs⟩ := h
            subst hs
            have F1 := decodeLineCap_enc lc
            have F2 := decodeLineJoin_enc lj
            have F3 := decodeAnimatedNum_rt (Exists.choose_spec (reqField_ok ho))
            have F4 := decodeAnimatedNum_rt (Exists.choose_spec (reqField_ok hw))
            have F5 : decodeStrokeDashList (.arr (d.map encodeStrokeDash)) =
                .ok d := by
              rcases fieldD_ok hd2 with h1 | ⟨j1, hj1⟩
              · subst h1
                rfl
              · exact decodeStrokeDashList_rt hj1
            have F6 := decodeAnimatedVec2_rt (Exists.choose_spec (reqField_ok hsg))
            have F7 := decodeAnimatedVec2_rt (Exists.choose_spec (reqField_ok he))
            have F8 := decodeGradientType_enc t
            have F9 := decodeAnimatedColorList_roundtrip
              (Exists.choose_spec (reqField_ok hg))
            show decodeShape (f + 1) (.obj [("nm", a), ("hd", b),
              ("ty", .str "gs"), ("lc", encodeLineCap lc),
              ("lj", encodeLineJoin lj), ("ml", .num ml),
              ("o", encodeAnimatedNum o), ("w", encodeAnimatedNum w),
              ("d", .arr (d.map encodeStrokeDash)), ("s", encodeAnimatedVec2 sg),
              ("e", encodeAnimatedVec2 e), ("t", encodeGradientType t),
              ("g", encodeAnimatedColorList g)]) =
              .ok (.GradientStroke lc lj ml o w d sg e t g)
            simp [decodeShape, lookupField, reqField, fieldD, decodeNum,
              F1, F2, F3, F4, F5, F6, F7, F8, F9]
          · -- gr
            split at h
            · rename_i items hit
              simp only [bind_ok_iff, Except.ok.injEq] at h
              obtain ⟨shapes, hshapes, hs⟩ := h
              subst hs
              have F1 := ihL _ _ hshapes
              show decodeShape (f + 1) (.obj [("nm", a), ("hd", b),
                ("ty", .str "gr"), ("it", .arr (encodeShapeLayerList shapes))]) =
                .ok (.Group shapes)
              simp [decodeShape, lookupField, F1]
            · simp at h
            · simp at h
          · -- tr
            simp only [bind_ok_iff, Except.ok.injEq] at h
            obtain ⟨t, ht, hs⟩ := h
            subst hs
            have HR := decodeTransform_roundtrip ht
              [("nm", a), ("hd", b), ("ty", .str "tr")] rfl rfl rfl rfl rfl rfl
              rfl
            simp only [List.cons_append, List.nil_append] at HR
            show decodeShape (f + 1) (.obj (("nm", a) :: ("hd", b) ::
              ("ty", .str "tr") :: encodeTransformFields t)) = .ok (.Transform t)
            simp [decodeShape, lookupField, HR]
          · -- rp
            simp only [bind_ok_iff, Except.ok.injEq] at h
            obtain ⟨c, hc, o, ho, m, hm, tr, htr, hs⟩ := h
            subst hs
            have F1 := decodeAnimatedNum_rt (Exists.choose_spec (reqField_ok hc))
            have F2 := decodeAnimatedNum_rt (Exists.choose_spec (reqField_ok ho))
            have F3 := decodeComposite_enc m
            have F4 := decodeRepeaterTransform_roundtrip
              (Exists.choose_spec (reqField_ok htr))
            show decodeShape (f + 1) (.obj [("nm", a), ("hd", b),
              ("ty", .str "rp"), ("c", encodeAnimatedNum c),
              ("o", encodeAnimatedNum o), ("m", encodeComposite m),
              ("tr", encodeRepeaterTransform tr)]) = .ok (.Repeater c o m tr)
            simp [decodeShape, lookupField, reqField, F1, F2, F3, F4]
          · -- tm
            simp only [bind_ok_iff, Except.ok.injEq] at h
            obtain ⟨sg, hsg, e, he, o, ho, m, hm, hs⟩ := h
            subst hs
            have F1 := decodeAnimatedNum_rt (Exists.choose_spec (reqField_ok hsg))
            have F2 := decodeAnimatedNum_rt (Exists.choose_spec (reqField_ok he))
            have F3 := decodeAnimatedNum_rt (Exists.choose_spec (reqField_ok ho))
            have F4 := decodeTrimMultipleShape_enc m
            show decodeShape (f + 1) (.obj [("nm", a), ("hd", b),
              ("ty", .str "tm"), ("s", encodeAnimatedNum sg),
              ("e", encodeAnimatedNum e), ("o", encodeAnimatedNum o),
              ("m", encodeTrimMultipleShape m)]) = .ok (.Trim sg e o m)
            simp [decodeShape, lookupField, reqField, F1, F2, F3, F4]
          · -- rd
            simp only [bind_ok_iff, Except.ok.injEq] at h
            obtain ⟨r, hr, hs⟩ := h
            subst hs
            have F1 := decodeAnimatedNum_rt (Exists.choose_spec (reqField_ok hr))
            show decodeShape (f + 1) (.obj [("nm", a), ("hd", b),
              ("ty", .str "rd"), ("r", encodeAnimatedNum r)]) =
              .ok (.RoundedCorners r)
            simp [decodeShape, lookupField, reqField, F1]
          · -- pb
            simp only [bind_ok_iff, Except.ok.injEq] at h
            obtain ⟨am, ham, hs⟩ := h
            subst hs
            have F1 := decodeAnimatedNum_rt (Exists.choose_spec (reqField_ok ham))
            show decodeShape (f + 1) (.obj [("nm", a), ("hd", b),
              ("ty", .str "pb"), ("a", encodeAnimatedNum am)]) =
              .ok (.PuckerBloat am)
            simp [decodeShape, lookupField, reqField, F1]
          · -- tw
            simp only [bind_ok_iff, Except.ok.injEq] at h
            obtain ⟨an, han, c, hc, hs⟩ := h
            subst hs
            have F1 := decodeAnimatedNum_rt (Exists.choose_spec (reqField_ok han))
            have F2 := decodeAnimatedVec2_rt (Exists.choose_spec (reqField_ok hc))
            show decodeShape (f + 1) (.obj [("nm", a), ("hd", b),
              ("ty", .str "tw"), ("a", encodeAnimatedNum an),
              ("c", encodeAnimatedVec2 c)]) = .ok (.Twist an c)
            simp [decodeShape, lookupField, reqField, F1, F2]
          · -- mm
            simp only [bind_ok_iff, Except.ok.injEq] at h
            obtain ⟨m, hm, hs⟩ := h
            subst hs
            have F1 := decodeMergeMode_enc m
            show decodeShape (f + 1) (.obj [("nm", a), ("hd", b),
              ("ty", .str "mm"), ("mm", encodeMergeMode m)]) = .ok (.Merge m)
            simp [decodeShape, lookupField, reqField, F1]
          · -- op
            simp only [bind_ok_iff, Except.ok.injEq] at h
            obtain ⟨am, ham, lj, hlj, ml, hml, hs⟩ := h
            subst hs
            have F1 := decodeAnimatedNum_rt (Exists.choose_spec (reqField_ok ham))
            have F2 := decodeLineJoin_enc lj
            show decodeShape (f + 1) (.obj [("nm", a), ("hd", b),
              ("ty", .str "op"), ("a", encodeAnimatedNum am),
              ("lj", encodeLineJoin lj), ("ml", .num ml)]) =
              .ok (.OffsetPath am lj ml)
            simp [decodeShape, lookupField, reqField, decodeNum, F1, F2]
          · -- zz
            simp only [bind_ok_iff, Except.ok.injEq] at h
            obtain ⟨r, hr, ds, hds, pt, hpt, hs⟩ := h
            subst hs
            have F1 := decodeAnimatedNum_rt (Exists.choose_spec (reqField_ok hr))
            have F2 := decodeAnimatedNum_rt (Exists.choose_spec (reqField_ok hds))
            have F3 := decodeAnimatedNum_rt (Exists.choose_spec (reqField_ok hpt))
            show decodeShape (f + 1) (.obj [("nm", a), ("hd", b),
              ("ty", .str "zz"), ("r", encodeAnimatedNum r),
              ("s", encodeAnimatedNum ds), ("pt", encodeAnimatedNum pt)]) =
              .ok (.ZigZag r ds pt)
            simp [decodeShape, lookupField, reqField, F1, F2, F3]
          · simp at h
        · simp at h
        · simp at h
      | null => simp [decodeShape] at h
      | bool b2 => simp [decodeShape] at h
      | num q => simp [decodeShape] at h
      | str s2 => simp [decodeShape] at h
      | arr l2 => simp [decodeShape] at h
    · intro js ss h
      cases js with
      | nil =>
        simp only [decodeShapeLayers] at h
        obtain rfl : ss = [] := by simpa using h.symm
        rfl
      | cons j0 rest =>
        simp only [decodeShapeLayers, bind_ok_iff, Except.ok.injEq] at h
        obtain ⟨s0, hs0, ss2, hss2, hcons⟩ := h
        obtain rfl : ss = s0 :: ss2 := hcons.symm
        show decodeShapeLayers (f + 1)
          (encodeShapeLayer s0 :: encodeShapeLayerList ss2) = .ok (s0 :: ss2)
        simp only [decodeShapeLayers, ih1 _ _ hs0, ihL _ _ hss2, ok_bind]
    · intro j sl h
      cases j with
      | obj fields =>
        simp only [decodeShapeLayer, bind_ok_iff, Except.ok.injEq] at h
        obtain ⟨nm, hnm, hd, hhd, sh, hsh, hsl⟩ := h
        subst hsl
        have Fsh := ihS _ sh (encodeOpt Json.str nm) (.bool hd) hsh
        have Fnm : optField (("nm", encodeOpt Json.str nm) :: ("hd", .bool hd)
            :: encodeShapeFields sh) "nm" decodeStr = .ok nm :=
          optField_reenc
            (fun (v : String) (_ : nm = some v) =>
              (rfl : decodeStr (Json.str v) = .ok v))
            (fun v => by simp)
            (("nm", encodeOpt Json.str nm) :: ("hd", .bool hd)
              :: encodeShapeFields sh) "nm" rfl
        have Fhd : fieldD (("nm", encodeOpt Json.str nm) :: ("hd", .bool hd)
            :: encodeShapeFields sh) "hd" decodeBool false = .ok hd :=
          fieldD_reenc (rfl : decodeBool (.bool hd) = .ok hd)
            (("nm", encodeOpt Json.str nm) :: ("hd", .bool hd)
              :: encodeShapeFields sh) "hd" rfl
        show decodeShapeLayer (f + 1) (.obj (("nm", encodeOpt Json.str nm)
          :: ("hd", .bool hd) :: encodeShapeFields sh)) = .ok (.mk nm hd 0 sh)
        simp only [decodeShapeLayer, Fnm, Fhd, Fsh, ok_bind]
      | null => simp [decodeShapeLayer] at h
      | bool b2 => simp [decodeShapeLayer] at h
      | num q => simp [decodeShapeLayer] at h
      | str s2 => simp [decodeShapeLayer] at h
      | arr l2 => simp [decodeShapeLayer] at h

/-! ## Layer- and document-level round-trips -/

theorem decodeLayerContent_roundtrip {fuel : ℕ} {fields : List (String × Json)}
    {c : LayerContent} (h : decodeLayerContent fuel fields = .ok c)
    (pre : List (String × Json))
    (q1 : lookupField pre "refId" = none) (q2 : lookupField pre "sc" = none)
    (q3 : lookupField pre "shapes" = none) (q4 : lookupField pre "w" = none)
    (q5 : lookupField pre "h" = none) (q6 : lookupField pre "tm" = none) :
    decodeLayerContent fuel (pre ++ encodeLayerContentFields c) = .ok c := by
  simp only [decodeLayerContent] at h
  split at h
  · -- refId present: precomposition reference
    simp only [bind_ok_iff, Except.ok.injEq] at h
    obtain ⟨r, hr, hc⟩ := h
    subst hc
    have HR := decodePreCompositionRef_roundtrip hr pre q1 q4 q5 q6
    have hlk : lookupField (pre ++ encodePreCompositionRefFields r) "refId" =
        some (.str r.ref_id) := by
      rw [lookupField_append_none q1]
      rfl
    show decodeLayerContent fuel (pre ++ encodePreCompositionRefFields r) =
      .ok (.Precomposition r)
    simp only [decodeLayerContent, hlk, HR, ok_bind]
  · -- refId absent
    split at h
    · -- sc present: solid color, whose hex parser never succeeds
      simp only [bind_ok_iff] at h
      obtain ⟨cs, hcs, c2, hc2, _⟩ := h
      exact absurd hc2 (by simp [rgbaFromStr])
    · -- sc absent
      split at h
      · -- shapes present: shape group
        simp only [bind_ok_iff, Except.ok.injEq] at h
        obtain ⟨g, hg, hc⟩ := h
        subst hc
        simp only [decodeShapeGroup] at hg
        split at hg
        · rename_i items hit
          simp only [bind_ok_iff, Except.ok.injEq] at hg
          obtain ⟨ss, hss, hgq⟩ := hg
          have hG := (shape_roundtrip fuel).2.1 _ _ hss
          subst hgq
          have h1 : lookupField (pre ++ encodeLayerContentFields
              (.Shape { shapes := ss })) "refId" = none := by
            rw [lookupField_append_none q1]
            rfl
          have h2 : lookupField (pre ++ encodeLayerContentFields
              (.Shape { shapes := ss })) "sc" = none := by
            rw [lookupField_append_none q2]
            rfl
          have h3 : lookupField (pre ++ encodeLayerContentFields
              (.Shape { shapes := ss })) "shapes" =
              some (.arr (encodeShapeLayerList ss)) := by
            rw [lookupField_append_none q3]
            rfl
          simp only [decodeLayerContent, decodeShapeGroup, h1, h2, h3, hG,
            ok_bind]
        · simp at hg
        · simp at hg
      · -- no distinguishing key: empty content
        simp only [Except.ok.injEq] at h
        subst h
        show decodeLayerContent fuel (pre ++ []) = .ok .Empty
        rw [List.append_nil]
        simp only [decodeLayerContent, q1, q2, q3]

theorem decodeLayer_roundtrip {fuel : ℕ} {j : Json} {l : Layer}
    (h : decodeLayer fuel j = .ok l) :
    decodeLayer fuel (encodeLayer l) = .ok l := by
  cases j with
  | obj fields =>
    simp only [decodeLayer, bind_ok_iff, Except.ok.injEq] at h
    obtain ⟨ddd, hddd, hd, hhd, ind, hind, par, hpar, ao, hao, ip, hip,
      op, hop, st, hst, nm, hnm, ks, hks, content, hcontent, hl⟩ := h
    subst hl
    set L0 : Layer :=
      { is_3d := ddd, hidden := hd, index := ind, parent_index := par,
        id := 0, auto_orient := ao, start_frame := ip, end_frame := op,
        start_time := st, name := nm, transform := ks, content := content }
      with hL0
    have HC := decodeLayerContent_roundtrip hcontent
      [("ddd", int_from_bool ddd), ("hd", .bool hd),
       ("ind", encodeOpt encodeU32 ind), ("parent", encodeOpt encodeU32 par),
       ("ao", int_from_bool ao), ("ip", .num ip), ("op", .num op),
       ("st", .num st), ("nm", encodeOpt Json.str nm),
       ("ks", encodeOpt encodeTransform ks)]
      rfl rfl rfl rfl rfl rfl
    simp only [List.cons_append, List.nil_append] at HC
    have Fddd : fieldD (encodeLayerFields L0) "ddd" bool_from_int false =
        .ok ddd :=
      fieldD_reenc (bool_from_int_roundtrip ddd) (encodeLayerFields L0) "ddd" rfl
    have Fhd : fieldD (encodeLayerFields L0) "hd" decodeBool false = .ok hd :=
      fieldD_reenc (rfl : decodeBool (.bool hd) = .ok hd)
        (encodeLayerFields L0) "hd" rfl
    have Find : optField (encodeLayerFields L0) "ind" decodeU32 = .ok ind :=
      optField_reenc
        (fun v hv => decodeU32_roundtrip
          (Exists.choose_spec (optField_ok_some hind v hv)))
        (fun v => by simp [encodeU32])
        (encodeLayerFields L0) "ind" rfl
    have Fpar : optField (encodeLayerFields L0) "parent" decodeU32 = .ok par :=
      optField_reenc
        (fun v hv => decodeU32_roundtrip
          (Exists.choose_spec (optField_ok_some hpar v hv)))
        (fun v => by simp [encodeU32])
        (encodeLayerFields L0) "parent" rfl
    have Fao : fieldD (encodeLayerFields L0) "ao" bool_from_int false = .ok ao :=
      fieldD_reenc (bool_from_int_roundtrip ao) (encodeLayerFields L0) "ao" rfl
    have Fip : reqField (encodeLayerFields L0) "ip" decodeNum = .ok ip :=
      reqField_reenc (rfl : decodeNum (.num ip) = .ok ip)
        (encodeLayerFields L0) "ip" rfl
    have Fop : reqField (encodeLayerFields L0) "op" decodeNum = .ok op :=
      reqField_reenc (rfl : decodeNum (.num op) = .ok op)
        (encodeLayerFields L0) "op" rfl
    have Fst : reqField (encodeLayerFields L0) "st" decodeNum = .ok st :=
      reqField_reenc (rfl : decodeNum (.num st) = .ok st)
        (encodeLayerFields L0) "st" rfl
    have Fnm : optField (encodeLayerFields L0) "nm" decodeStr = .ok nm :=
      optField_reenc
        (fun (v : String) (_ : nm = some v) =>
          (rfl : decodeStr (Json.str v) = .ok v))
        (fun v => by simp)
        (encodeLayerFields L0) "nm" rfl
    have Fks : optField (encodeLayerFields L0) "ks" decodeTransform = .ok ks :=
      optField_reenc
        (fun v hv => by
          obtain ⟨jj, hjj⟩ := optField_ok_some hks v hv
          exact decodeTransform_roundtrip hjj [] rfl rfl rfl rfl rfl rfl rfl)
        (fun v => by simp [encodeTransform])
        (encodeLayerFields L0) "ks" rfl
    show decodeLayer fuel (.obj (encodeLayerFields L0)) = .ok L0
    have hEF : encodeLayerFields L0 =
        ("ddd", int_from_bool ddd) :: ("hd", .bool hd) ::
        ("ind", encodeOpt encodeU32 ind) ::
        ("parent", encodeOpt encodeU32 par) ::
        ("ao", int_from_bool ao) :: ("ip", .num ip) :: ("op", .num op) ::
        ("st", .num st) :: ("nm", encodeOpt Json.str nm) ::
        ("ks", encodeOpt encodeTransform ks) ::
        encodeLayerContentFields content := rfl
    rw [hEF] at Fddd Fhd Find Fpar Fao Fip Fop Fst Fnm Fks ⊢
    simp only [decodeLayer, Fddd, Fhd, Find, Fpar, Fao, Fip, Fop, Fst, Fnm,
      Fks, HC, ok_bind]
  | null => simp [decodeLayer] at h
  | bool b => simp [decodeLayer] at h
  | num q => simp [decodeLayer] at h
  | str s => simp [decodeLayer] at h
  | arr l2 => simp [decodeLayer] at h

theorem decodeLayerList_rt {fuel : ℕ} {j : Json} {ls : List Layer}
    (h : decodeLayerList fuel j = .ok ls) :
    decodeLayerList fuel (.arr (ls.map encodeLayer)) = .ok ls := by
  cases j with
  | arr items =>
    exact decodeList_rt_of_ok (fun hj => decodeLayer_roundtrip hj) h
  | null => simp [decodeLayerList] at h
  | bool b => simp [decodeLayerList] at h
  | num q => simp [decodeLayerList] at h
  | str s => simp [decodeLayerList] at h
  | obj l2 => simp [decodeLayerList] at h

theorem decodePrecomposition_roundtrip {fuel : ℕ} {j : Json}
    {p : Precomposition} (h : decodePrecomposition fuel j = .ok p) :
    decodePrecomposition fuel (encodePrecomposition p) = .ok p := by
  cases j with
  | obj fields =>
    simp only [decodePrecomposition, bind_ok_iff, Except.ok.injEq] at h
    obtain ⟨pid, hpid, ls, hls, nm, hnm, fr, hfr, hp⟩ := h
    subst hp
    set P0 : Precomposition :=
      { id := pid, layers := ls, name := nm, frame_rate := fr } with hP0
    have Fid : reqField (encodePrecompositionFields P0) "id" decodeStr =
        .ok pid :=
      reqField_reenc (rfl : decodeStr (.str pid) = .ok pid)
        (encodePrecompositionFields P0) "id" rfl
    have Fls : reqField (encodePrecompositionFields P0) "layers"
        (decodeLayerList fuel) = .ok ls :=
      reqField_reenc
        (decodeLayerList_rt (Exists.choose_spec (reqField_ok hls)))
        (encodePrecompositionFields P0) "layers" rfl
    have Fnm : optField (encodePrecompositionFields P0) "nm" decodeStr =
        .ok nm :=
      optField_reenc
        (fun (x : String) (_ : nm = some x) =>
          (rfl : decodeStr (Json.str x) = .ok x))
        (fun x => by simp)
        (encodePrecompositionFields P0) "nm" rfl
    have Ffr : optField (encodePrecompositionFields P0) "fr" decodeNum =
        .ok fr :=
      optField_reenc
        (fun (x : ℚ) (_ : fr = some x) =>
          (rfl : decodeNum (Json.num x) = .ok x))
        (fun x => by simp)
        (encodePrecompositionFields P0) "fr" rfl
    show decodePrecomposition fuel (.obj (encodePrecompositionFields P0)) =
      .ok P0
    simp only [decodePrecomposition, Fid, Fls, Fnm, Ffr, ok_bind]
  | null => simp [decodePrecomposition] at h
  | bool b => simp [decodePrecomposition] at h
  | num q => simp [decodePrecomposition] at h
  | str s => simp [decodePrecomposition] at h
  | arr l2 => simp [decodePrecomposition] at h

theorem decodePrecompositionList_rt {fuel : ℕ} {j : Json}
    {ps : List Precomposition} (h : decodePrecompositionList fuel j = .ok ps) :
    decodePrecompositionList fuel (.arr (ps.map encodePrecomposition)) =
      .ok ps := by
  cases j with
  | arr items =>
    exact decodeList_rt_of_ok (fun hj => decodePrecomposition_roundtrip hj) h
  | null => simp [decodePrecompositionList] at h
  | bool b => simp [decodePrecompositionList] at h
  | num q => simp [decodePrecompositionList] at h
  | str s => simp [decodePrecompositionList] at h
  | obj l2 => simp [decodePrecompositionList] at h

theorem decodeFont_roundtrip {j : Json} {f : Font}
    (h : decodeFont j = .ok f) : decodeFont (encodeFont f) = .ok f := by
  cases j with
  | obj fields =>
    simp only [decodeFont, bind_ok_iff, Except.ok.injEq] at h
    obtain ⟨asc, hasc, fam, hfam, nm, hnm, sty, hsty, pth, hpth, wt, hwt,
      org, horg, cls, hcls, hf⟩ := h
    subst hf
    set F0 : Font :=
      { ascent := asc, family := fam, name := nm, style := sty,
        path := pth, weight := wt, origin := org, class_ := cls } with hF0
    have Fasc : optField (encodeFontFields F0) "ascent" decodeNum = .ok asc :=
      optField_reenc
        (fun (x : ℚ) (_ : asc = some x) =>
          (rfl : decodeNum (Json.num x) = .ok x))
        (fun x => by simp)
        (encodeFontFields F0) "ascent" rfl
    have Ffam : reqField (encodeFontFields F0) "fFamily" decodeStr = .ok fam :=
      reqField_reenc (rfl : decodeStr (.str fam) = .ok fam)
        (encodeFontFields F0) "fFamily" rfl
    have Fnm : reqField (encodeFontFields F0) "fName" decodeStr = .ok nm :=
      reqField_reenc (rfl : decodeStr (.str nm) = .ok nm)
        (encodeFontFields F0) "fName" rfl
    have Fsty : reqField (encodeFontFields F0) "fStyle" decodeStr = .ok sty :=
      reqField_reenc (rfl : decodeStr (.str sty) = .ok sty)
        (encodeFontFields F0) "fStyle" rfl
    have Fpth : optField (encodeFontFields F0) "fPath" decodeStr = .ok pth :=
      optField_reenc
        (fun (x : String) (_ : pth = some x) =>
          (rfl : decodeStr (Json.str x) = .ok x))
        (fun x => by simp)
        (encodeFontFields F0) "fPath" rfl
    have Fwt : optField (encodeFontFields F0) "fWeight" decodeStr = .ok wt :=
      optField_reenc
        (fun (x : String) (_ : wt = some x) =>
          (rfl : decodeStr (Json.str x) = .ok x))
        (fun x => by simp)
        (encodeFontFields F0) "fWeight" rfl
    have Forg : fieldD (encodeFontFields F0) "origin" decodeFontPathOrigin
        .Local = .ok org :=
      fieldD_reenc (decodeFontPathOrigin_enc org) (encodeFontFields F0)
        "origin" rfl
    have Fcls : optField (encodeFontFields F0) "fClass" decodeStr = .ok cls :=
      optField_reenc
        (fun (x : String) (_ : cls = some x) =>
          (rfl : decodeStr (Json.str x) = .ok x))
        (fun x => by simp)
        (encodeFontFields F0) "fClass" rfl
    show decodeFont (.obj (encodeFontFields F0)) = .ok F0
    simp only [decodeFont, Fasc, Ffam, Fnm, Fsty, Fpth, Fwt, Forg, Fcls,
      ok_bind]
  | null => simp [decodeFont] at h
  | bool b => simp [decodeFont] at h
  | num q => simp [decodeFont] at h
  | str s => simp [decodeFont] at h
  | arr l2 => simp [decodeFont] at h

theorem decodeFontVec_rt {j : Json} {fs : List Font}
    (h : decodeFontVec j = .ok fs) :
    decodeFontVec (.arr (fs.map encodeFont)) = .ok fs := by
  cases j with
  | arr items =>
    exact decodeList_rt_of_ok (fun hj => decodeFont_roundtrip hj) h
  | null => simp [decodeFontVec] at h
  | bool b => simp [decodeFontVec] at h
  | num q => simp [decodeFontVec] at h
  | str s => simp [decodeFontVec] at h
  | obj l2 => simp [decodeFontVec] at h

theorem decodeFontList_roundtrip {j : Json} {l : FontList}
    (h : decodeFontList j = .ok l) :
    decodeFontList (encodeFontList l) = .ok l := by
  cases j with
  | obj fields =>
    simp only [decodeFontList, bind_ok_iff, Except.ok.injEq] at h
    obtain ⟨fs, hfs, hl⟩ := h
    subst hl
    have Ffs : reqField (encodeFontListFields { list := fs }) "list"
        decodeFontVec = .ok fs :=
      reqField_reenc (decodeFontVec_rt (Exists.choose_spec (reqField_ok hfs)))
        (encodeFontListFields { list := fs }) "list" rfl
    show decodeFontList (.obj (encodeFontListFields { list := fs })) =
      .ok { list := fs }
    simp only [decodeFontList, Ffs, ok_bind]
  | null => simp [decodeFontList] at h
  | bool b => simp [decodeFontList] at h
  | num q => simp [decodeFontList] at h
  | str s => simp [decodeFontList] at h
  | arr l2 => simp [decodeFontList] at h

theorem decodeModel_roundtrip {fuel : ℕ} {j : Json} {m : Model}
    (h : decodeModel fuel j = .ok m) :
    decodeModel fuel (encodeModel m) = .ok m := by
  cases j with
  | obj fields =>
    simp only [decodeModel, bind_ok_iff, Except.ok.injEq] at h
    obtain ⟨nm, hnm, v, hv, ip, hip, op, hop, fr, hfr, w, hw, ht, hht,
      ls, hls, asts, hasts, fnts, hfnts, hm⟩ := h
    subst hm
    set M0 : Model :=
      { name := nm, version := v, start_frame := ip, end_frame := op,
        frame_rate := fr, width := w, height := ht, layers := ls,
        assets := asts, fonts := fnts } with hM0
    have Fnm : optField (encodeModelFields M0) "nm" decodeStr = .ok nm :=
      optField_reenc
        (fun (x : String) (_ : nm = some x) =>
          (rfl : decodeStr (Json.str x) = .ok x))
        (fun x => by simp)
        (encodeModelFields M0) "nm" rfl
    have Fv : optField (encodeModelFields M0) "v" decodeStr = .ok v :=
      optField_reenc
        (fun (x : String) (_ : v = some x) =>
          (rfl : decodeStr (Json.str x) = .ok x))
        (fun x => by simp)
        (encodeModelFields M0) "v" rfl
    have Fip : reqField (encodeModelFields M0) "ip" decodeNum = .ok ip :=
      reqField_reenc (rfl : decodeNum (.num ip) = .ok ip)
        (encodeModelFields M0) "ip" rfl
    have Fop : reqField (encodeModelFields M0) "op" decodeNum = .ok op :=
      reqField_reenc (rfl : decodeNum (.num op) = .ok op)
        (encodeModelFields M0) "op" rfl
    have Ffr : reqField (encodeModelFields M0) "fr" decodeNum = .ok fr :=
      reqField_reenc (rfl : decodeNum (.num fr) = .ok fr)
        (encodeModelFields M0) "fr" rfl
    have Fw : reqField (encodeModelFields M0) "w" decodeU32 = .ok w :=
      reqField_reenc (decodeU32_roundtrip (Exists.choose_spec (reqField_ok hw)))
        (encodeModelFields M0) "w" rfl
    have Fh : reqField (encodeModelFields M0) "h" decodeU32 = .ok ht :=
      reqField_reenc (decodeU32_roundtrip (Exists.choose_spec (reqField_ok hht)))
        (encodeModelFields M0) "h" rfl
    have Fls : reqField (encodeModelFields M0) "layers"
        (decodeLayerList fuel) = .ok ls :=
      reqField_reenc
        (decodeLayerList_rt (Exists.choose_spec (reqField_ok hls)))
        (encodeModelFields M0) "layers" rfl
    have Fasts : fieldD (encodeModelFields M0) "assets"
        (decodePrecompositionList fuel) [] = .ok asts := by
      refine fieldD_reenc ?_ (encodeModelFields M0) "assets" rfl
      rcases fieldD_ok hasts with h1 | ⟨j1, hj1⟩
      · subst h1
        rfl
      · exact decodePrecompositionList_rt hj1
    have Ffnts : fieldD (encodeModelFields M0) "fonts" decodeFontList
        { list := [] } = .ok fnts := by
      refine fieldD_reenc ?_ (encodeModelFields M0) "fonts" rfl
      rcases fieldD_ok hfnts with h1 | ⟨j1, hj1⟩
      · subst h1
        rfl
      · exact decodeFontList_roundtrip hj1
    show decodeModel fuel (.obj (encodeModelFields M0)) = .ok M0
    simp only [decodeModel, Fnm, Fv, Fip, Fop, Ffr, Fw, Fh, Fls, Fasts,
      Ffnts, ok_bind]
  | null => simp [decodeModel] at h
  | bool b => simp [decodeModel] at h
  | num q => simp [decodeModel] at h
  | str s => simp [decodeModel] at h
  | arr l2 => simp [decodeModel] at h

/-! ## Claim C4: encode/decode round trip -/

/-- A concrete document with one shape layer holding a rectangle, used to
instantiate the round-trip theorem. -/
def c4DocJson : Json :=
  .obj [("ip", .num 0), ("op", .num 30), ("fr", .num 30),
        ("w", .num 100), ("h", .num 100),
        ("layers", .arr [.obj [("ip", .num 0), ("op", .num 30),
          ("st", .num 0), ("shapes", .arr [shapeJson_rc])]])]

/-- The document `c4DocJson` decodes to. -/
def c4Doc : Model :=
  { name := none, version := none, start_frame := 0, end_frame := 30,
    frame_rate := 30, width := 100, height := 100,
    layers := [{ is_3d := false, hidden := false, index := none,
                 parent_index := none, id := 0, auto_orient := false,
                 start_frame := 0, end_frame := 30, start_time := 0,
                 name := none, transform := none,
                 content := .Shape { shapes :=
                   [.mk none false 0 shapeVal_rc] } }],
    assets := [], fonts := { list := [] } }

/-- C4: every representable document survives the encode/decode cycle —
a document obtained from a successful decode (at some recursion budget)
re-decodes from its encoding to the same field-wise value, so the primitive
coercions, the keyframe backfill, and the shape tag dispatch are exact
inverses of their encode counterparts. -/
theorem C4_decode_encode_roundtrip (fuel : ℕ) (j : Json) (D : Model)
    (h : decodeModel fuel j = .ok D) :
    decodeModel fuel (encodeModel D) = .ok D :=
  decodeModel_roundtrip h

/-- Witness for C4: the concrete one-rectangle document decodes, and
re-decoding its encoding returns the same document. -/
theorem C4_decode_encode_roundtrip_witness :
    decodeModel 6 c4DocJson = .ok c4Doc ∧
    decodeModel 6 (encodeModel c4Doc) = .ok c4Doc :=
  ⟨rfl, C4_decode_encode_roundtrip 6 c4DocJson c4Doc rfl⟩

end Lottie
